import Mathlib

/-!
# Cross-region replication sample: provisioning and teardown workflow

A shallow embedding of `example.go` (package `main`): the package-level
variables `shouldCleanUp`, `anfResources` and `exitCode`, the function `main`
and the function `exit` run by the deferred call of `main`.

Every call into package `sdkutils` is a remote call.  The remote side is a
parameter: a `Client` answers each call with an error or with the identifier
of the returned resource.  The calls issued and the answers received are
recorded, in order, in the field `trace` of the state.  Console output is not
part of the model.
-/

namespace CRR

/-! ## Data model -/

/-- Properties - properties to be used when defining primary and secondary anf
resources (struct `Properties`). -/
structure Properties where
  Location : String
  ResourceGroupName : String
  VnetResourceGroupName : String
  VnetName : String
  SubnetName : String
  AnfAccountName : String
  CapacityPoolName : String
  VolumeName : String
  ServiceLevel : String
  VolumeID : String
  CapacityPoolID : String
  AccountID : String
  deriving DecidableEq, Repr

/-- The two keys of the map `anfResources`, also the elements of `sideIndex`. -/
inductive Side where
  | Primary
  | Secondary
  deriving DecidableEq, Repr

/-- The map `anfResources`: one descriptor for each of its two keys. -/
structure AnfResources where
  Primary : Properties
  Secondary : Properties
  deriving DecidableEq, Repr

/-- Map lookup `anfResources[side]`. -/
def AnfResources.get (m : AnfResources) : Side → Properties
  | .Primary => m.Primary
  | .Secondary => m.Secondary

/-- Store through the pointer `anfResources[side]`. -/
def AnfResources.set (m : AnfResources) (side : Side) (p : Properties) : AnfResources :=
  match side with
  | .Primary => { m with Primary := p }
  | .Secondary => { m with Secondary := p }

/-- Values of `armnetapp.EndpointType`. -/
inductive EndpointType where
  | EndpointTypeDst
  | EndpointTypeSrc
  deriving DecidableEq, Repr

/-- Values of `armnetapp.ReplicationSchedule`. -/
inductive ReplicationSchedule where
  | ReplicationSchedule10Minutely
  | ReplicationScheduleDaily
  | ReplicationScheduleHourly
  deriving DecidableEq, Repr

/-- Values of `armnetapp.MirrorState`. -/
inductive MirrorState where
  | MirrorStateBroken
  | MirrorStateMirrored
  | MirrorStateUninitialized
  deriving DecidableEq, Repr

/-- The fields of `armnetapp.ReplicationObject` that `main` fills in. -/
structure ReplicationObject where
  EndpointType : EndpointType
  RemoteVolumeRegion : String
  RemoteVolumeResourceID : String
  ReplicationSchedule : ReplicationSchedule
  deriving DecidableEq, Repr

/-- The struct `armnetapp.VolumePropertiesDataProtection`; `main` only ever
touches its pointer field `Replication` (`none` is the nil pointer of the zero
value). -/
structure VolumePropertiesDataProtection where
  Replication : Option ReplicationObject
  deriving DecidableEq, Repr

/-- A call into package `sdkutils`, with the arguments `example.go` passes, in
the order of the call sites (the context argument left out).  A nil slice is
the empty list, the map of tags a list of pairs; the integers and booleans
passed as literals keep the position they have at the call site. -/
inductive Call where
  | GetResourceByID (resourceID apiVersion : String)
  | CreateAnfAccount (location resourceGroupName accountName : String)
      (activeDirectories : List String) (tags : List (String × String))
  | CreateAnfCapacityPool (location resourceGroupName accountName poolName serviceLevel : String)
      (sizeBytes : Int) (tags : List (String × String))
  | CreateAnfVolume (location resourceGroupName accountName poolName volumeName
      serviceLevel subnetID snapshotID : String) (protocolTypes : List String)
      (volumeUsageQuota : Int) (boolArg1 boolArg2 : Bool) (tags : List (String × String))
      (dataProtectionObject : VolumePropertiesDataProtection)
  | WaitForANFResource (resourceID : String) (intArg1 intArg2 : Int) (checkForReplication : Bool)
  | WaitForNoANFResource (resourceID : String) (intArg1 intArg2 : Int) (checkForReplication : Bool)
  | WaitForMirrorState (resourceID : String) (desiredState : MirrorState) (intArg1 intArg2 : Int)
  | AuthorizeReplication (resourceGroupName accountName poolName volumeName
      remoteVolumeResourceID : String)
  | BreakAnfVolumeReplication (resourceGroupName accountName poolName volumeName : String)
  | DeleteAnfVolumeReplication (resourceGroupName accountName poolName volumeName : String)
  | DeleteAnfVolume (resourceGroupName accountName poolName volumeName : String)
  | DeleteAnfCapacityPool (resourceGroupName accountName poolName : String)
  | DeleteAnfAccount (resourceGroupName accountName : String)
  deriving DecidableEq, Repr

/-- What a call returns: the error `err` (`none` is nil, `some msg` an error
whose `Error()` is `msg`) and, for the calls that return a resource, the
`*x.ID` of that resource.  A call that returns a nil error is taken to return
a resource whose `ID` is set, so that `main` can dereference it. -/
structure Resp where
  err : Option String
  id : String
  deriving DecidableEq, Repr

/-- One remote call together with its answer. -/
structure Event where
  call : Call
  resp : Resp
  deriving DecidableEq, Repr

/-- The remote client: the answer to a call, given how many calls the process
has issued before it. -/
abbrev Client := Nat → Call → Resp

/-- The package-level variables `shouldCleanUp`, `anfResources`, `exitCode`,
and the record of the remote calls issued so far. -/
structure World where
  shouldCleanUp : Bool
  anfResources : AnfResources
  exitCode : Int
  trace : List Event
  deriving DecidableEq, Repr

/-! ## Package-level constants and variables -/

def virtualNetworksApiVersion : String := "2019-09-01"

def capacityPoolSizeBytes : Int := 4398046511104

def volumeSizeBytes : Int := 107374182400

def protocolTypes : List String := ["NFSv3"]

def sampleTags : List (String × String) :=
  [("Author", "ANF Go CRR SDK Sample"), ("Service", "Azure Netapp Files")]

/-- Initial value of the variable `anfResources`. -/
def anfResources : AnfResources where
  Primary :=
    { Location := "westus"
      ResourceGroupName := "anf-primary-rg"
      VnetResourceGroupName := "anf-primary-rg"
      VnetName := "westus-primary-vnet"
      SubnetName := "anf-primary-sn"
      AnfAccountName := "PrimaryANFAccount"
      CapacityPoolName := "PrimaryPool"
      ServiceLevel := "Premium"
      VolumeName := "PrimaryVolume"
      VolumeID := ""
      CapacityPoolID := ""
      AccountID := "" }
  Secondary :=
    { Location := "eastus"
      ResourceGroupName := "anf-secondary-rg"
      VnetResourceGroupName := "anf-secondary-rg"
      VnetName := "eastus-secondary-vnet"
      SubnetName := "anf-secondary-sn"
      AnfAccountName := "SecondaryANFAccount"
      CapacityPoolName := "SecondaryPool"
      ServiceLevel := "Standard"
      VolumeName := "SecondaryVolume"
      VolumeID := ""
      CapacityPoolID := ""
      AccountID := "" }

/-- The state at program start; `flag` is the initial value of `shouldCleanUp`
(`false` in the source as published). -/
def initialWorld (flag : Bool) : World :=
  { shouldCleanUp := flag, anfResources := anfResources, exitCode := 0, trace := [] }

/-! ## Remote calls -/

/-- Issue one call: ask the client, record the call and its answer. -/
def remote (o : Client) (c : Call) (w : World) : Resp × World :=
  let r := o w.trace.length c
  (r, { w with trace := w.trace ++ [⟨c, r⟩] })

/-- The statements `exitCode = 1; shouldCleanUp = false` that precede every
`return` of `main` on an error. -/
def abortRun (w : World) : World :=
  { w with exitCode := 1, shouldCleanUp := false }

/-- The statement `exitCode = 1` that precedes every `return` of `exit` on an
error. -/
def abortCleanUp (w : World) : World :=
  { w with exitCode := 1 }

/-- The call `strings.Contains(s, substr)`: `substr` occurs in `s` at some
position.  Go compares bytes, the model characters; on well-formed UTF-8 text
the two agree. -/
def stringsContains (s substr : String) : Bool :=
  s.toList.tails.any (fun t => substr.toList.isPrefixOf t)

/-- The subnet identifier built by `fmt.Sprintf` in `main`. -/
def subnetIDOf (subscriptionID : String) (p : Properties) : String :=
  "/subscriptions/" ++ subscriptionID ++ "/resourceGroups/" ++ p.VnetResourceGroupName
    ++ "/providers/Microsoft.Network/virtualNetworks/" ++ p.VnetName
    ++ "/subnets/" ++ p.SubnetName

/-- Sequencing of two parts of a function body.  `.error w` says that the
function has executed `return` in state `w`, `.ok w` that control has reached
the end of the part: after a `return` the rest is skipped. -/
def andThen (x : Except World World) (k : World → Except World World) : Except World World :=
  match x with
  | .error w => .error w
  | .ok w => k w

/-- The state in which the function is left, through a `return` or through the
end of its body. -/
def leave : Except World World → World
  | .error w => w
  | .ok w => w

/-- A `for _, side := range sideIndex` loop whose body may `return` from the
enclosing function. -/
def forRange (body : Side → World → Except World World) :
    List Side → World → Except World World
  | [], w => .ok w
  | side :: rest, w => andThen (body side w) (forRange body rest)

/-! ## `main` -/

/-- The data protection object `main` builds before creating the volume of
`side`. -/
def dataProtectionObjectFor (side : Side) (w : World) : VolumePropertiesDataProtection :=
  if side = Side.Secondary then
    { Replication := some
        { EndpointType := EndpointType.EndpointTypeDst
          RemoteVolumeRegion := (w.anfResources.get Side.Primary).Location
          RemoteVolumeResourceID := (w.anfResources.get Side.Primary).VolumeID
          ReplicationSchedule := ReplicationSchedule.ReplicationScheduleHourly } }
  else
    { Replication := none }

/-- The body of the loop over `sideIndex` in `main`. -/
def mainBody (o : Client) (subscriptionID : String) (side : Side) (w : World) :
    Except World World :=
  let subnetID := subnetIDOf subscriptionID (w.anfResources.get side)
  let (r, w) := remote o (Call.GetResourceByID subnetID virtualNetworksApiVersion) w
  if r.err ≠ none then .error (abortRun w) else
  let (account, w) := remote o (Call.CreateAnfAccount (w.anfResources.get side).Location
    (w.anfResources.get side).ResourceGroupName (w.anfResources.get side).AnfAccountName
    [] sampleTags) w
  if account.err ≠ none then .error (abortRun w) else
  let w := { w with anfResources := (w.anfResources.set side
    { (w.anfResources.get side) with AccountID := account.id }) }
  let (capacityPool, w) := remote o (Call.CreateAnfCapacityPool (w.anfResources.get side).Location
    (w.anfResources.get side).ResourceGroupName (w.anfResources.get side).AnfAccountName
    (w.anfResources.get side).CapacityPoolName (w.anfResources.get side).ServiceLevel
    capacityPoolSizeBytes sampleTags) w
  if capacityPool.err ≠ none then .error (abortRun w) else
  let w := { w with anfResources := (w.anfResources.set side
    { (w.anfResources.get side) with CapacityPoolID := capacityPool.id }) }
  let dataProtectionObject := dataProtectionObjectFor side w
  let (volume, w) := remote o (Call.CreateAnfVolume (w.anfResources.get side).Location
    (w.anfResources.get side).ResourceGroupName (w.anfResources.get side).AnfAccountName
    (w.anfResources.get side).CapacityPoolName (w.anfResources.get side).VolumeName
    (w.anfResources.get side).ServiceLevel subnetID "" protocolTypes volumeSizeBytes
    false true sampleTags dataProtectionObject) w
  if volume.err ≠ none then .error (abortRun w) else
  let w := { w with anfResources := (w.anfResources.set side
    { (w.anfResources.get side) with VolumeID := volume.id }) }
  let (r, w) := remote o (Call.WaitForANFResource (w.anfResources.get side).VolumeID 60 50 false) w
  if r.err ≠ none then .error (abortRun w) else
  .ok w

/-- The function `main` up to its `return`.  `config` is what
`utils.ReadAzureBasicInfoJSON` returned: its error and `*config.SubscriptionID`. -/
def main (o : Client) (config : Resp) (w : World) : World :=
  if config.err ≠ none then abortRun w else
  leave <| andThen (forRange (mainBody o config.id) [Side.Primary, Side.Secondary] w) fun w =>
  let (r, w) := remote o (Call.AuthorizeReplication
    (w.anfResources.get Side.Primary).ResourceGroupName
    (w.anfResources.get Side.Primary).AnfAccountName
    (w.anfResources.get Side.Primary).CapacityPoolName
    (w.anfResources.get Side.Primary).VolumeName
    (w.anfResources.get Side.Secondary).VolumeID) w
  if r.err ≠ none then .error (abortRun w) else
  let (r, w) := remote o (Call.WaitForANFResource
    (w.anfResources.get Side.Primary).VolumeID 60 50 true) w
  if r.err ≠ none then .error (abortRun w) else
  .ok w

/-! ## `exit` -/

/-- The condition `err != nil && !strings.Contains(err.Error(),
"VolumeReplicationMissing")` on the result of `DeleteAnfVolumeReplication`. -/
def replicationDeleteFailed (r : Resp) : Bool :=
  match r.err with
  | none => false
  | some msg => !(stringsContains msg "VolumeReplicationMissing")

/-- The block `if side == "Secondary" { ... }` of the loop in `exit`: break and
delete the replication.  The results of the three waits are discarded. -/
def exitReplication (o : Client) (side : Side) (w : World) : Except World World :=
  let p := w.anfResources.get side
  if side = Side.Secondary then
    let (_, w) := remote o (Call.WaitForMirrorState p.VolumeID
      MirrorState.MirrorStateMirrored 60 50) w
    let (r, w) := remote o (Call.BreakAnfVolumeReplication p.ResourceGroupName
      p.AnfAccountName p.CapacityPoolName p.VolumeName) w
    if r.err ≠ none then .error (abortCleanUp w) else
    let (_, w) := remote o (Call.WaitForMirrorState p.VolumeID
      MirrorState.MirrorStateBroken 60 50) w
    let (r, w) := remote o (Call.DeleteAnfVolumeReplication p.ResourceGroupName
      p.AnfAccountName p.CapacityPoolName p.VolumeName) w
    if replicationDeleteFailed r then .error (abortCleanUp w) else
    let (_, w) := remote o (Call.WaitForNoANFResource p.VolumeID 60 50 true) w
    .ok w
  else .ok w

/-- The body of the loop over `sideIndex` in `exit`. -/
def exitBody (o : Client) (side : Side) (w : World) : Except World World :=
  let p := w.anfResources.get side
  andThen (exitReplication o side w) fun w =>
  let (r, w) := remote o (Call.DeleteAnfVolume p.ResourceGroupName p.AnfAccountName
    p.CapacityPoolName p.VolumeName) w
  if r.err ≠ none then .error (abortCleanUp w) else
  let (_, w) := remote o (Call.WaitForNoANFResource p.VolumeID 60 50 false) w
  let (r, w) := remote o (Call.DeleteAnfCapacityPool p.ResourceGroupName p.AnfAccountName
    p.CapacityPoolName) w
  if r.err ≠ none then .error (abortCleanUp w) else
  let (_, w) := remote o (Call.WaitForNoANFResource p.CapacityPoolID 60 50 false) w
  let (r, w) := remote o (Call.DeleteAnfAccount p.ResourceGroupName p.AnfAccountName) w
  if r.err ≠ none then .error (abortCleanUp w) else
  .ok w

/-- The function `exit`. -/
def exit (o : Client) (w : World) : World :=
  if w.shouldCleanUp then
    leave (forRange (exitBody o) [Side.Secondary, Side.Primary] w)
  else w

/-- A whole run of the process: `main`, then the deferred `exit`; the process
ends with `os.Exit(exitCode)` of the resulting state. -/
def run (o : Client) (config : Resp) (flag : Bool) : World :=
  exit o (main o config (initialWorld flag))

/-! ## The readiness poller -/

/-- Modelled from the spec: what one fetch of the readiness poller observes.
The poller lives in package `sdkutils`, of which `example.go` only holds
the call sites.  `NotFound` is the "not found" response; `Found` carries the
ready flag and the mirror state of the resource. -/
inductive Observation where
  | NotFound
  | Found (ready : Bool) (mirrorState : Option MirrorState)
  deriving DecidableEq, Repr

/-- Modelled from the spec: the condition the poller of package `sdkutils`
waits for, which is existence with ready state, non-existence, or a specific
mirror state. -/
inductive Target where
  | ReadyExists
  | Gone
  | Mirror (desiredState : MirrorState)
  deriving DecidableEq, Repr

/-- Modelled from the spec: whether an observed state matches the target
condition of the poller of package `sdkutils`; when waiting for non-existence
a "not found" response is a match. -/
def Target.met : Target → Observation → Bool
  | .ReadyExists, .Found ready _ => ready
  | .Gone, .NotFound => true
  | .Mirror desiredState, .Found _ mirrorState => mirrorState == some desiredState
  | _, _ => false

/-- Modelled from the spec: the result of the poller of package `sdkutils`,
success or a timeout failure carrying the last observed state, together with
the number of fetches made. -/
structure PollResult where
  success : Bool
  lastObserved : Option Observation
  fetches : Nat
  deriving DecidableEq, Repr

/-- Modelled from the spec: the loop of the poller of package `sdkutils`, with
`remaining` retries left after `done` fetches.  Attempt `k` observes `obs k`
(attempts count from 1).  A match returns success at once; otherwise the poller
sleeps and retries (the sleep takes time only and is left out). -/
def pollFrom (target : Target) (obs : Nat → Observation) :
    (remaining : Nat) → (done : Nat) → (last : Option Observation) → PollResult
  | 0, done, last => { success := false, lastObserved := last, fetches := done }
  | remaining + 1, done, _ =>
    if target.met (obs (done + 1)) then
      { success := true, lastObserved := some (obs (done + 1)), fetches := done + 1 }
    else pollFrom target obs remaining (done + 1) (some (obs (done + 1)))

/-- Modelled from the spec: the generic poll routine of package `sdkutils`
with retry budget `retries`. -/
def poll (target : Target) (obs : Nat → Observation) (retries : Nat) : PollResult :=
  pollFrom target obs retries 0 none

/-- Modelled from the spec: `sdkutils.WaitForANFResource`, the poller waiting
for existence with ready state.  `fetch resourceID checkForReplication k` is
what attempt `k` observes. -/
def WaitForANFResource (fetch : String → Bool → Nat → Observation) (resourceID : String)
    (retries : Nat) (checkForReplication : Bool) : PollResult :=
  poll Target.ReadyExists (fetch resourceID checkForReplication) retries

/-- Modelled from the spec: `sdkutils.WaitForNoANFResource`, the poller
waiting for non-existence. -/
def WaitForNoANFResource (fetch : String → Bool → Nat → Observation) (resourceID : String)
    (retries : Nat) (checkForReplication : Bool) : PollResult :=
  poll Target.Gone (fetch resourceID checkForReplication) retries

/-- Modelled from the spec: `sdkutils.WaitForMirrorState`, the poller waiting
for a specific mirror state of the replication of a volume. -/
def WaitForMirrorState (fetch : String → Bool → Nat → Observation) (resourceID : String)
    (desiredState : MirrorState) (retries : Nat) : PollResult :=
  poll (Target.Mirror desiredState) (fetch resourceID true) retries

/-! ## Vocabulary of the properties -/

/-- The calls issued by `main`: the provisioning steps. -/
def Call.isProvisioning : Call → Bool
  | .GetResourceByID .. => true
  | .CreateAnfAccount .. => true
  | .CreateAnfCapacityPool .. => true
  | .CreateAnfVolume .. => true
  | .WaitForANFResource .. => true
  | .AuthorizeReplication .. => true
  | _ => false

/-- The break and delete calls. -/
def Call.isBreakOrDelete : Call → Bool
  | .BreakAnfVolumeReplication .. => true
  | .DeleteAnfVolumeReplication .. => true
  | .DeleteAnfVolume .. => true
  | .DeleteAnfCapacityPool .. => true
  | .DeleteAnfAccount .. => true
  | _ => false

/-- The replication steps: wait for a mirror state, break, delete replication. -/
def Call.isReplicationStep : Call → Bool
  | .WaitForMirrorState .. => true
  | .BreakAnfVolumeReplication .. => true
  | .DeleteAnfVolumeReplication .. => true
  | _ => false

/-- The delete-volume calls. -/
def Call.isDeleteVolume : Call → Bool
  | .DeleteAnfVolume .. => true
  | _ => false

/-- The delete-replication calls. -/
def Call.isDeleteReplication : Call → Bool
  | .DeleteAnfVolumeReplication .. => true
  | _ => false

/-- A create-volume request for the volume described by `p`. -/
def Call.createsVolumeOf (p : Properties) : Call → Bool
  | .CreateAnfVolume _ resourceGroupName accountName poolName volumeName .. =>
    resourceGroupName == p.ResourceGroupName && accountName == p.AnfAccountName
      && poolName == p.CapacityPoolName && volumeName == p.VolumeName
  | _ => false

/-- The data protection object a create-volume request carries. -/
def Call.dataProtection : Call → Option VolumePropertiesDataProtection
  | .CreateAnfVolume _ _ _ _ _ _ _ _ _ _ _ _ _ dataProtectionObject => some dataProtectionObject
  | _ => none

/-- An event is a failed call when its answer carries an error. -/
def failed (e : Event) : Bool := decide (e.resp.err ≠ none)

/-- A failure that ends the teardown: a break-replication, delete-volume,
delete-pool or delete-account call that returned an error, or a
delete-replication call that returned an error other than already-missing. -/
def teardownFailure (e : Event) : Bool :=
  match e.call with
  | .BreakAnfVolumeReplication .. => decide (e.resp.err ≠ none)
  | .DeleteAnfVolume .. => decide (e.resp.err ≠ none)
  | .DeleteAnfCapacityPool .. => decide (e.resp.err ≠ none)
  | .DeleteAnfAccount .. => decide (e.resp.err ≠ none)
  | .DeleteAnfVolumeReplication .. => replicationDeleteFailed e.resp
  | _ => false

/-! ## Auxiliary definitions of the proofs -/

/-- The elements of a list up to and including the first one that satisfies `p`. -/
def takeThrough {α : Type} (p : α → Bool) : List α → List α
  | [] => []
  | a :: l => if p a then [a] else a :: takeThrough p l

/-- The calls of a list, answered by the client as the calls number `n`,
`n + 1`, ... of the process. -/
def answered (o : Client) : Nat → List Call → List Event
  | _, [] => []
  | n, c :: cs => ⟨c, o n c⟩ :: answered o (n + 1) cs

/-- A property of every position of a list, positions counted from `n`. -/
def allIdx {α : Type} (P : Nat → α → Prop) : Nat → List α → Prop
  | _, [] => True
  | n, a :: l => P n a ∧ allIdx P (n + 1) l

/-- The calls of a teardown in which no call ends the teardown. -/
def exitCalls (res : AnfResources) : List Call :=
  let s := res.Secondary
  let p := res.Primary
  [ Call.WaitForMirrorState s.VolumeID MirrorState.MirrorStateMirrored 60 50,
    Call.BreakAnfVolumeReplication s.ResourceGroupName s.AnfAccountName s.CapacityPoolName
      s.VolumeName,
    Call.WaitForMirrorState s.VolumeID MirrorState.MirrorStateBroken 60 50,
    Call.DeleteAnfVolumeReplication s.ResourceGroupName s.AnfAccountName s.CapacityPoolName
      s.VolumeName,
    Call.WaitForNoANFResource s.VolumeID 60 50 true,
    Call.DeleteAnfVolume s.ResourceGroupName s.AnfAccountName s.CapacityPoolName s.VolumeName,
    Call.WaitForNoANFResource s.VolumeID 60 50 false,
    Call.DeleteAnfCapacityPool s.ResourceGroupName s.AnfAccountName s.CapacityPoolName,
    Call.WaitForNoANFResource s.CapacityPoolID 60 50 false,
    Call.DeleteAnfAccount s.ResourceGroupName s.AnfAccountName,
    Call.DeleteAnfVolume p.ResourceGroupName p.AnfAccountName p.CapacityPoolName p.VolumeName,
    Call.WaitForNoANFResource p.VolumeID 60 50 false,
    Call.DeleteAnfCapacityPool p.ResourceGroupName p.AnfAccountName p.CapacityPoolName,
    Call.WaitForNoANFResource p.CapacityPoolID 60 50 false,
    Call.DeleteAnfAccount p.ResourceGroupName p.AnfAccountName ]

/-- The calls of a provisioning in which no call fails, with their answers:
the calls number `n`, `n + 1`, ... of the process. -/
def mainEvents (o : Client) (sub : String) (res : AnfResources) (n : Nat) : List Event :=
  let p := res.Primary
  let s := res.Secondary
  let c0 := Call.GetResourceByID (subnetIDOf sub p) virtualNetworksApiVersion
  let c1 := Call.CreateAnfAccount p.Location p.ResourceGroupName p.AnfAccountName [] sampleTags
  let c2 := Call.CreateAnfCapacityPool p.Location p.ResourceGroupName p.AnfAccountName
    p.CapacityPoolName p.ServiceLevel capacityPoolSizeBytes sampleTags
  let c3 := Call.CreateAnfVolume p.Location p.ResourceGroupName p.AnfAccountName
    p.CapacityPoolName p.VolumeName p.ServiceLevel (subnetIDOf sub p) "" protocolTypes
    volumeSizeBytes false true sampleTags { Replication := none }
  let r3 := o (n + 3) c3
  let c4 := Call.WaitForANFResource r3.id 60 50 false
  let c5 := Call.GetResourceByID (subnetIDOf sub s) virtualNetworksApiVersion
  let c6 := Call.CreateAnfAccount s.Location s.ResourceGroupName s.AnfAccountName [] sampleTags
  let c7 := Call.CreateAnfCapacityPool s.Location s.ResourceGroupName s.AnfAccountName
    s.CapacityPoolName s.ServiceLevel capacityPoolSizeBytes sampleTags
  let c8 := Call.CreateAnfVolume s.Location s.ResourceGroupName s.AnfAccountName
    s.CapacityPoolName s.VolumeName s.ServiceLevel (subnetIDOf sub s) "" protocolTypes
    volumeSizeBytes false true sampleTags
    { Replication := some
        { EndpointType := EndpointType.EndpointTypeDst
          RemoteVolumeRegion := p.Location
          RemoteVolumeResourceID := r3.id
          ReplicationSchedule := ReplicationSchedule.ReplicationScheduleHourly } }
  let r8 := o (n + 8) c8
  let c9 := Call.WaitForANFResource r8.id 60 50 false
  let c10 := Call.AuthorizeReplication p.ResourceGroupName p.AnfAccountName p.CapacityPoolName
    p.VolumeName r8.id
  let c11 := Call.WaitForANFResource r3.id 60 50 true
  [⟨c0, o n c0⟩, ⟨c1, o (n + 1) c1⟩, ⟨c2, o (n + 2) c2⟩, ⟨c3, r3⟩, ⟨c4, o (n + 4) c4⟩,
   ⟨c5, o (n + 5) c5⟩, ⟨c6, o (n + 6) c6⟩, ⟨c7, o (n + 7) c7⟩, ⟨c8, r8⟩, ⟨c9, o (n + 9) c9⟩,
   ⟨c10, o (n + 10) c10⟩, ⟨c11, o (n + 11) c11⟩]

/-! ## Concrete clients and states -/

/-- The answer of a call that succeeds. -/
def okResp : Resp := { err := none, id := "rid" }

/-- A client on which every call succeeds, but for the call number `k` of the
process, which fails with the message `msg`. -/
def failingAt (k : Nat) (msg : String) : Client :=
  fun n _ => if n = k then { err := some msg, id := "" } else okResp

/-- A client on which every call succeeds. -/
def okClient : Client := fun _ _ => okResp

/-- The result of a successful read of the configuration. -/
def okConfig : Resp := { err := none, id := "sub" }

/-- The create-volume request for the Secondary volume, as issued and answered
in a run with `okConfig` on a client whose answers are `okResp`. -/
def secondaryCreateEvent : Event :=
  { call := Call.CreateAnfVolume "eastus" "anf-secondary-rg" "SecondaryANFAccount"
      "SecondaryPool" "SecondaryVolume" "Standard"
      "/subscriptions/sub/resourceGroups/anf-secondary-rg/providers/Microsoft.Network/virtualNetworks/eastus-secondary-vnet/subnets/anf-secondary-sn"
      "" ["NFSv3"] 107374182400 false true
      [("Author", "ANF Go CRR SDK Sample"), ("Service", "Azure Netapp Files")]
      { Replication := some
          { EndpointType := EndpointType.EndpointTypeDst
            RemoteVolumeRegion := "westus"
            RemoteVolumeResourceID := "rid"
            ReplicationSchedule := ReplicationSchedule.ReplicationScheduleHourly } }
    resp := okResp }


/-! ## Lists cut at the first failure -/

theorem takeThrough_append_rest {α : Type} (p : α → Bool) (l : List α) :
    ∃ rest, l = takeThrough p l ++ rest := by
  induction l with
  | nil => exact ⟨[], rfl⟩
  | cons a l ih =>
    obtain ⟨rest, hrest⟩ := ih
    by_cases ha : p a = true
    · exact ⟨l, by simp [takeThrough, ha]⟩
    · refine ⟨rest, ?_⟩
      simp only [takeThrough, ha, Bool.false_eq_true, if_false, List.cons_append]
      rw [← hrest]

theorem takeThrough_subset {α : Type} (p : α → Bool) (l : List α) (a : α)
    (h : a ∈ takeThrough p l) : a ∈ l := by
  obtain ⟨rest, hrest⟩ := takeThrough_append_rest p l
  rw [hrest]
  exact List.mem_append_left _ h

theorem takeThrough_before {α : Type} (p : α → Bool) (l pre post : List α) (e : α)
    (h : takeThrough p l = pre ++ e :: post) : ∀ x ∈ pre, p x = false := by
  induction l generalizing pre with
  | nil => simp [takeThrough] at h
  | cons a l ih =>
    by_cases ha : p a = true
    · simp only [takeThrough, ha, if_true] at h
      cases pre with
      | nil => simp
      | cons b pre => simp at h
    · simp only [takeThrough, ha, Bool.false_eq_true, if_false] at h
      cases pre with
      | nil => simp
      | cons b pre =>
        simp only [List.cons_append, List.cons.injEq] at h
        intro x hx
        rcases List.mem_cons.mp hx with rfl | hx
        · rw [← h.1]; simpa using ha
        · exact ih pre h.2 x hx

theorem takeThrough_nothing_after {α : Type} (p : α → Bool) (l pre post : List α) (e : α)
    (h : takeThrough p l = pre ++ e :: post) (he : p e = true) : post = [] := by
  induction l generalizing pre with
  | nil => simp [takeThrough] at h
  | cons a l ih =>
    by_cases ha : p a = true
    · simp only [takeThrough, ha, if_true] at h
      cases pre with
      | nil =>
        simp only [List.nil_append, List.cons.injEq] at h
        exact h.2.symm
      | cons b pre => simp at h
    · simp only [takeThrough, ha, Bool.false_eq_true, if_false] at h
      cases pre with
      | nil =>
        simp only [List.nil_append, List.cons.injEq] at h
        rw [h.1] at ha
        exact absurd he ha
      | cons b pre =>
        simp only [List.cons_append, List.cons.injEq] at h
        exact ih pre h.2

theorem takeThrough_of_none {α : Type} (p : α → Bool) (l : List α)
    (h : l.any p = false) : takeThrough p l = l := by
  induction l with
  | nil => rfl
  | cons a l ih =>
    simp only [List.any_cons, Bool.or_eq_false_iff] at h
    simp [takeThrough, h.1, ih h.2]

theorem any_of_mem_takeThrough {α : Type} (p : α → Bool) (l : List α) (e : α)
    (h : e ∈ takeThrough p l) (he : p e = true) : l.any p = true :=
  List.any_eq_true.mpr ⟨e, takeThrough_subset p l e h, he⟩

theorem allIdx_getElem? {α : Type} (P : Nat → α → Prop) (l : List α) (n : Nat)
    (h : allIdx P n l) (i : Nat) (a : α) (hi : l[i]? = some a) : P (n + i) a := by
  induction l generalizing n i with
  | nil => simp at hi
  | cons b l ih =>
    cases i with
    | zero =>
      simp only [List.getElem?_cons_zero, Option.some.injEq] at hi
      subst hi
      exact h.1
    | succ i =>
      simp only [List.getElem?_cons_succ] at hi
      have := ih (n + 1) h.2 i hi
      rwa [Nat.add_assoc, Nat.add_comm 1 i] at this

theorem split_getElem? {α : Type} (l pre post : List α) (e : α) (h : l = pre ++ e :: post) :
    l[pre.length]? = some e ∧ pre = l.take pre.length := by
  subst h
  refine ⟨?_, by simp⟩
  rw [List.getElem?_append_right (Nat.le_refl _)]
  simp

/-! ## The workflows as lists of calls cut at the first failure -/

theorem andThen_ok (w : World) (k : World → Except World World) :
    andThen (.ok w) k = k w := rfl

theorem andThen_error (w : World) (k : World → Except World World) :
    andThen (.error w) k = .error w := rfl

theorem andThen_ite (c : Prop) [Decidable c] (x y : Except World World)
    (k : World → Except World World) :
    andThen (if c then x else y) k = if c then andThen x k else andThen y k := by
  split <;> rfl

theorem leave_ite (c : Prop) [Decidable c] (x y : Except World World) :
    leave (if c then x else y) = if c then leave x else leave y := by
  split <;> rfl

theorem leave_ok (w : World) : leave (.ok w) = w := rfl

theorem leave_error (w : World) : leave (.error w) = w := rfl

/-- With the cleanup flag set, `exit` issues the calls of `exitCalls` up to and
including the first one that ends the teardown. -/
theorem exit_eq (o : Client) (w : World) (h : w.shouldCleanUp = true) :
    exit o w =
      { w with
        trace := w.trace
          ++ takeThrough teardownFailure (answered o w.trace.length (exitCalls w.anfResources))
        exitCode :=
          if (answered o w.trace.length (exitCalls w.anfResources)).any teardownFailure
          then 1 else w.exitCode } := by
  obtain ⟨f, res, ec, tr⟩ := w
  simp only at h
  subst h
  simp only [exit, forRange, exitBody, exitReplication, remote, exitCalls, answered,
    AnfResources.get, if_true, if_false, List.length_append, List.length_singleton,
    List.length_cons, List.length_nil, List.append_assoc, List.singleton_append,
    List.cons_append, List.nil_append, Nat.add_assoc, Nat.reduceAdd, takeThrough,
    teardownFailure, List.any_cons, List.any_nil, andThen_ok, andThen_error, andThen_ite,
    leave_ite, leave_ok, leave_error, abortCleanUp, reduceCtorEq]
  generalize o (tr.length) _ = r0
  generalize o (tr.length + 1) _ = r1
  generalize o (tr.length + 2) _ = r2
  generalize o (tr.length + 3) _ = r3
  generalize o (tr.length + 4) _ = r4
  generalize o (tr.length + 5) _ = r5
  generalize o (tr.length + 6) _ = r6
  generalize o (tr.length + 7) _ = r7
  generalize o (tr.length + 8) _ = r8
  generalize o (tr.length + 9) _ = r9
  generalize o (tr.length + 10) _ = r10
  generalize o (tr.length + 11) _ = r11
  generalize o (tr.length + 12) _ = r12
  generalize o (tr.length + 13) _ = r13
  generalize o (tr.length + 14) _ = r14
  by_cases h1 : r1.err = none
  swap
  · simp [*]
  by_cases h3 : replicationDeleteFailed r3 = true
  · simp [*]
  by_cases h5 : r5.err = none
  swap
  · simp [*]
  by_cases h7 : r7.err = none
  swap
  · simp [*]
  by_cases h9 : r9.err = none
  swap
  · simp [*]
  by_cases h10 : r10.err = none
  swap
  · simp [*]
  by_cases h12 : r12.err = none
  swap
  · simp [*]
  by_cases h14 : r14.err = none
  swap
  · simp [*]
  simp [*]

/-- Without the cleanup flag, `exit` does nothing. -/
theorem exit_skip (o : Client) (w : World) (h : w.shouldCleanUp = false) : exit o w = w := by
  simp [exit, h]

/-- After a successful read of the configuration, `main` issues the calls of
`mainEvents` up to and including the first one that fails. -/
theorem main_eq (o : Client) (config : Resp) (w : World) (hc : config.err = none) :
    (main o config w).trace
        = w.trace ++ takeThrough failed (mainEvents o config.id w.anfResources w.trace.length) ∧
    (main o config w).exitCode
        = (if (mainEvents o config.id w.anfResources w.trace.length).any failed then 1
            else w.exitCode) ∧
    (main o config w).shouldCleanUp
        = (if (mainEvents o config.id w.anfResources w.trace.length).any failed then false
            else w.shouldCleanUp) := by
  obtain ⟨f, res, ec, tr⟩ := w
  simp only [main, hc, forRange, mainBody, remote, mainEvents, AnfResources.get,
    AnfResources.set, dataProtectionObjectFor, if_true, if_false, List.length_append,
    List.length_singleton, List.length_cons, List.length_nil, List.append_assoc,
    List.singleton_append, List.cons_append, List.nil_append, Nat.add_assoc, Nat.reduceAdd,
    takeThrough, failed, List.any_cons, List.any_nil, andThen_ok, andThen_error, andThen_ite,
    leave_ite, leave_ok, leave_error, abortRun, reduceCtorEq, ne_eq, not_true_eq_false,
    ite_not]
  generalize o (tr.length) _ = r0
  generalize o (tr.length + 1) _ = r1
  generalize o (tr.length + 2) _ = r2
  generalize o (tr.length + 3) _ = r3
  generalize o (tr.length + 4) _ = r4
  generalize o (tr.length + 5) _ = r5
  generalize o (tr.length + 6) _ = r6
  generalize o (tr.length + 7) _ = r7
  generalize o (tr.length + 8) _ = r8
  generalize o (tr.length + 9) _ = r9
  generalize o (tr.length + 10) _ = r10
  generalize o (tr.length + 11) _ = r11
  by_cases h0 : r0.err = none
  swap
  · simp [*]
  by_cases h1 : r1.err = none
  swap
  · simp [*]
  by_cases h2 : r2.err = none
  swap
  · simp [*]
  by_cases h3 : r3.err = none
  swap
  · simp [*]
  by_cases h4 : r4.err = none
  swap
  · simp [*]
  by_cases h5 : r5.err = none
  swap
  · simp [*]
  by_cases h6 : r6.err = none
  swap
  · simp [*]
  by_cases h7 : r7.err = none
  swap
  · simp [*]
  by_cases h8 : r8.err = none
  swap
  · simp [*]
  by_cases h9 : r9.err = none
  swap
  · simp [*]
  by_cases h10 : r10.err = none
  swap
  · simp [*]
  by_cases h11 : r11.err = none
  swap
  · simp [*]
  simp [*]

/-! ## Whole runs -/

theorem mem_mainEvents (o : Client) (sub : String) (res : AnfResources) (n : Nat) (e : Event)
    (h : e ∈ mainEvents o sub res n) :
    e.call.isProvisioning = true ∧ e.call.isBreakOrDelete = false
      ∧ e.call.isReplicationStep = false := by
  simp only [mainEvents, List.mem_cons, List.mem_singleton, List.not_mem_nil, or_false] at h
  rcases h with h | h | h | h | h | h | h | h | h | h | h | h <;> subst h <;>
    exact ⟨rfl, rfl, rfl⟩

theorem mem_exitCalls (o : Client) (res : AnfResources) (n : Nat) (e : Event)
    (h : e ∈ answered o n (exitCalls res)) : e.call.isProvisioning = false := by
  simp only [exitCalls, answered, List.mem_cons, List.mem_singleton, List.not_mem_nil,
    or_false] at h
  rcases h with h | h | h | h | h | h | h | h | h | h | h | h | h | h | h <;> subst h <;> rfl

theorem initialWorld_trace (flag : Bool) : (initialWorld flag).trace = [] := rfl

theorem initialWorld_anfResources (flag : Bool) :
    (initialWorld flag).anfResources = anfResources := rfl

theorem initialWorld_exitCode (flag : Bool) : (initialWorld flag).exitCode = 0 := rfl

theorem initialWorld_shouldCleanUp (flag : Bool) : (initialWorld flag).shouldCleanUp = flag := rfl

theorem run_of_config_error (o : Client) (config : Resp) (flag : Bool)
    (hc : config.err ≠ none) : run o config flag = abortRun (initialWorld flag) := by
  simp [run, main, hc, exit, abortRun]

theorem run_of_failure (o : Client) (config : Resp) (flag : Bool) (hc : config.err = none)
    (hf : (mainEvents o config.id anfResources 0).any failed = true) :
    (run o config flag).trace = takeThrough failed (mainEvents o config.id anfResources 0) ∧
    (run o config flag).exitCode = 1 ∧ (run o config flag).shouldCleanUp = false := by
  obtain ⟨h1, h2, h3⟩ := main_eq o config (initialWorld flag) hc
  simp only [initialWorld_trace, initialWorld_anfResources, initialWorld_exitCode,
    initialWorld_shouldCleanUp, List.length_nil, List.nil_append, hf, if_true] at h1 h2 h3
  rw [run, exit_skip o _ h3]
  exact ⟨h1, h2, h3⟩

theorem run_of_success (o : Client) (config : Resp) (flag : Bool) (hc : config.err = none)
    (hf : (mainEvents o config.id anfResources 0).any failed = false) :
    ∃ res, (run o config flag).trace = mainEvents o config.id anfResources 0
        ++ (if flag = true then takeThrough teardownFailure (answered o 12 (exitCalls res))
            else []) ∧
      (run o config flag).exitCode
        = (if flag = true ∧ (answered o 12 (exitCalls res)).any teardownFailure = true then 1
            else 0) ∧
      (run o config flag).shouldCleanUp = flag := by
  obtain ⟨h1, h2, h3⟩ := main_eq o config (initialWorld flag) hc
  simp only [initialWorld_trace, initialWorld_anfResources, initialWorld_exitCode,
    initialWorld_shouldCleanUp, List.length_nil, List.nil_append, hf, Bool.false_eq_true,
    if_false] at h1 h2 h3
  rw [takeThrough_of_none _ _ hf] at h1
  refine ⟨(main o config (initialWorld flag)).anfResources, ?_⟩
  cases flag with
  | false =>
    rw [run, exit_skip o _ h3]
    simp [h1, h2, h3]
  | true =>
    rw [run, exit_eq o _ h3]
    have hl : (mainEvents o config.id anfResources 0).length = 12 := rfl
    simp only [h1, h2, h3, hl, true_and, if_true]

/-! ## Failure of a provisioning step -/

/-- A failed provisioning call in the trace of a run is a failed call of `main`. -/
theorem failure_in_main (o : Client) (config : Resp) (flag : Bool) (hc : config.err = none)
    (e : Event) (hmem : e ∈ (run o config flag).trace) (hp : e.call.isProvisioning = true)
    (he : e.resp.err ≠ none) : (mainEvents o config.id anfResources 0).any failed = true := by
  have hfe : failed e = true := by simpa [failed] using he
  by_contra hf
  have hf' : (mainEvents o config.id anfResources 0).any failed = false := by
    simpa using hf
  obtain ⟨res, h1, _, _⟩ := run_of_success o config flag hc hf'
  rw [h1] at hmem
  rcases List.mem_append.mp hmem with hm | hm
  · exact absurd hfe (List.any_eq_false.mp hf' e hm)
  · have hx : e ∈ answered o 12 (exitCalls res) := by
      split at hm
      · exact takeThrough_subset _ _ _ hm
      · simp at hm
    rw [mem_exitCalls o res 12 e hx] at hp
    exact absurd hp (by simp)

/-- The trace of a run in which a call of `main` failed holds calls of `main` only. -/
theorem failed_run_calls (o : Client) (config : Resp) (flag : Bool) (hc : config.err = none)
    (hf : (mainEvents o config.id anfResources 0).any failed = true) (x : Event)
    (hx : x ∈ (run o config flag).trace) :
    x.call.isProvisioning = true ∧ x.call.isBreakOrDelete = false := by
  rw [(run_of_failure o config flag hc hf).1] at hx
  have := mem_mainEvents o _ _ _ x (takeThrough_subset _ _ _ hx)
  exact ⟨this.1, this.2.1⟩

/-- C3: for every client, configuration result and initial value of the cleanup
flag, when the configuration read fails the run issues no call at all, and when
a provisioning call of the run fails (any call of `main`, on either side) that
call is the last call of the run; in both cases the run ends with exit code 1
and the cleanup flag false, and the run holds no break or delete call: only
provisioning calls were issued. -/
theorem provisioning_failure_ends_run (o : Client) (config : Resp) (flag : Bool) :
    (config.err ≠ none →
      (run o config flag).trace = [] ∧ (run o config flag).exitCode = 1
        ∧ (run o config flag).shouldCleanUp = false) ∧
    (∀ pre e post, (run o config flag).trace = pre ++ e :: post →
      e.call.isProvisioning = true → e.resp.err ≠ none →
      post = [] ∧ (run o config flag).exitCode = 1
        ∧ (run o config flag).shouldCleanUp = false
        ∧ ∀ x ∈ (run o config flag).trace,
            x.call.isProvisioning = true ∧ x.call.isBreakOrDelete = false) := by
  refine ⟨fun hc => ?_, fun pre e post hT hp he => ?_⟩
  · rw [run_of_config_error o config flag hc]
    exact ⟨rfl, rfl, rfl⟩
  · by_cases hc : config.err = none
    swap
    · rw [run_of_config_error o config flag hc] at hT
      simp [abortRun, initialWorld] at hT
    have hfe : failed e = true := by simpa [failed] using he
    have hmem : e ∈ (run o config flag).trace := by rw [hT]; simp
    have hf := failure_in_main o config flag hc e hmem hp he
    obtain ⟨h1, h2, h3⟩ := run_of_failure o config flag hc hf
    refine ⟨?_, h2, h3, failed_run_calls o config flag hc hf⟩
    rw [h1] at hT
    exact takeThrough_nothing_after _ _ _ _ _ hT hfe

/-- Witness of C3: the creation of the Secondary account (call number 6) fails
in a run started with the cleanup flag set. -/
theorem provisioning_failure_ends_run_witness :
    (run (failingAt 6 "denied") okConfig true).trace
      = (run (failingAt 6 "denied") okConfig true).trace.take 6
        ++ ⟨Call.CreateAnfAccount "eastus" "anf-secondary-rg" "SecondaryANFAccount" [] sampleTags,
            { err := some "denied", id := "" }⟩ :: [] ∧
    ([] : List Event) = [] ∧
    (run (failingAt 6 "denied") okConfig true).exitCode = 1 ∧
    (run (failingAt 6 "denied") okConfig true).shouldCleanUp = false ∧
    ∀ x ∈ (run (failingAt 6 "denied") okConfig true).trace,
      x.call.isProvisioning = true ∧ x.call.isBreakOrDelete = false :=
  ⟨by rfl, (provisioning_failure_ends_run (failingAt 6 "denied") okConfig true).2
    ((run (failingAt 6 "denied") okConfig true).trace.take 6)
    ⟨Call.CreateAnfAccount "eastus" "anf-secondary-rg" "SecondaryANFAccount" [] sampleTags,
      { err := some "denied", id := "" }⟩ [] (by rfl) (by rfl) (by simp)⟩

/-! ## Cleanup after a failure -/

/-- C9, as stated, fails: in a run started with the cleanup flag set in which
the creation of the Secondary account fails, a provisioning step has failed and
yet no break or delete call is issued. -/
theorem cleanup_after_failure_counterexample :
    (∃ e ∈ (run (failingAt 6 "denied") okConfig true).trace,
      e.call.isProvisioning = true ∧ e.resp.err ≠ none) ∧
    ¬ ∃ x ∈ (run (failingAt 6 "denied") okConfig true).trace, x.call.isBreakOrDelete = true := by
  decide

/-- C9, amended: when provisioning fails at any step (the configuration read
or a call of `main`), no break or delete call is issued on exit and the cleanup
flag ends false, whatever the value of the flag before the run: the resources
created so far are left in place with or without the opt-in. -/
theorem failure_suppresses_cleanup (o : Client) (config : Resp) (flag : Bool)
    (h : config.err ≠ none ∨ ∃ e ∈ (run o config flag).trace,
      e.call.isProvisioning = true ∧ e.resp.err ≠ none) :
    (∀ x ∈ (run o config flag).trace, x.call.isBreakOrDelete = false) ∧
    (run o config flag).shouldCleanUp = false := by
  by_cases hc : config.err = none
  swap
  · rw [run_of_config_error o config flag hc]
    exact ⟨by simp [abortRun, initialWorld], rfl⟩
  rcases h with h | ⟨e, hmem, hp, he⟩
  · exact absurd hc h
  have hf := failure_in_main o config flag hc e hmem hp he
  exact ⟨fun x hx => (failed_run_calls o config flag hc hf x hx).2,
    (run_of_failure o config flag hc hf).2.2⟩

/-- Witness of the amended C9: the Secondary pool creation (call number 7)
fails in a run started with the cleanup flag set. -/
theorem failure_suppresses_cleanup_witness :
    (okConfig.err ≠ none ∨ ∃ e ∈ (run (failingAt 7 "quota") okConfig true).trace,
      e.call.isProvisioning = true ∧ e.resp.err ≠ none) ∧
    (∀ x ∈ (run (failingAt 7 "quota") okConfig true).trace, x.call.isBreakOrDelete = false) ∧
    (run (failingAt 7 "quota") okConfig true).shouldCleanUp = false :=
  ⟨by decide, failure_suppresses_cleanup (failingAt 7 "quota") okConfig true (by decide)⟩

/-! ## The two create-volume requests -/

/-- The run is cut out of the calls of a complete provisioning followed by the
calls of a complete teardown. -/
theorem run_append_rest (o : Client) (config : Resp) (flag : Bool) (hc : config.err = none) :
    ∃ res rest, mainEvents o config.id anfResources 0 ++ answered o 12 (exitCalls res)
      = (run o config flag).trace ++ rest := by
  by_cases hf : (mainEvents o config.id anfResources 0).any failed = true
  · obtain ⟨rest, hrest⟩ := takeThrough_append_rest failed (mainEvents o config.id anfResources 0)
    refine ⟨anfResources, rest ++ answered o 12 (exitCalls anfResources), ?_⟩
    rw [(run_of_failure o config flag hc hf).1, ← List.append_assoc, ← hrest]
  · have hf' : (mainEvents o config.id anfResources 0).any failed = false := by
      simpa using hf
    obtain ⟨res, h1, _, _⟩ := run_of_success o config flag hc hf'
    cases flag with
    | false =>
      exact ⟨res, answered o 12 (exitCalls res), by rw [h1]; simp⟩
    | true =>
      obtain ⟨rest, hrest⟩ := takeThrough_append_rest teardownFailure (answered o 12 (exitCalls res))
      refine ⟨res, rest, ?_⟩
      rw [h1]
      simp only [if_true, List.append_assoc]
      rw [← hrest]

/-- Every event of a run that stands before another event is a successful call
of `main`, as long as it is among the first twelve. -/
theorem run_before (o : Client) (config : Resp) (flag : Bool) (hc : config.err = none)
    (pre post : List Event) (e : Event) (hT : (run o config flag).trace = pre ++ e :: post)
    (hlen : pre.length ≤ 12) : ∀ x ∈ pre, failed x = false := by
  by_cases hf : (mainEvents o config.id anfResources 0).any failed = true
  · rw [(run_of_failure o config flag hc hf).1] at hT
    exact takeThrough_before _ _ _ _ _ hT
  · have hf' : (mainEvents o config.id anfResources 0).any failed = false := by
      simpa using hf
    obtain ⟨res, h1, _, _⟩ := run_of_success o config flag hc hf'
    rw [h1] at hT
    intro x hx
    apply Bool.eq_false_iff.mpr
    apply List.any_eq_false.mp hf' x
    have h2 := congrArg (List.take pre.length) hT
    have hl : (mainEvents o config.id anfResources 0).length = 12 := rfl
    rw [List.take_append_of_le_length (by omega), List.take_left'  rfl] at h2
    rw [← h2] at hx
    exact List.mem_of_mem_take hx

/-- Once the first four calls of `main` have succeeded, the Primary descriptor
holds the id returned by the fourth call, the creation of the Primary volume. -/
theorem main_primary_volumeID (o : Client) (config : Resp) (w : World)
    (hc : config.err = none) (e3 : Event)
    (h3 : (mainEvents o config.id w.anfResources w.trace.length)[3]? = some e3)
    (hok : ∀ x ∈ (mainEvents o config.id w.anfResources w.trace.length).take 4,
      failed x = false) :
    (main o config w).anfResources.Primary.VolumeID = e3.resp.id := by
  obtain ⟨f, res, ec, tr⟩ := w
  simp only [mainEvents, List.getElem?_cons_succ, List.getElem?_cons_zero,
    Option.some.injEq] at h3
  subst h3
  simp only [mainEvents, List.take_succ_cons, List.take_zero, List.mem_cons, List.mem_singleton,
    List.not_mem_nil, or_false, forall_eq_or_imp, forall_eq, failed, decide_eq_false_iff_not,
    ne_eq, not_not] at hok
  obtain ⟨h0, h1, h2, h3⟩ := hok
  simp only [main, hc, forRange, mainBody, remote, AnfResources.get,
    AnfResources.set, dataProtectionObjectFor, if_true, if_false, List.length_append,
    List.length_singleton, List.length_cons, List.length_nil, List.append_assoc,
    List.singleton_append, List.cons_append, List.nil_append, Nat.add_assoc, Nat.reduceAdd,
    andThen_ok, andThen_error, andThen_ite,
    leave_ite, leave_ok, leave_error, abortRun, reduceCtorEq, ne_eq, not_true_eq_false,
    ite_not, h0, h1, h2, h3]
  simp only [apply_ite World.anfResources, apply_ite AnfResources.Primary,
    apply_ite Properties.VolumeID, ite_self]

/-- The function `exit` leaves the descriptors as they are. -/
theorem exit_anfResources (o : Client) (w : World) :
    (exit o w).anfResources = w.anfResources := by
  cases h : w.shouldCleanUp with
  | false => rw [exit_skip o w h]
  | true => rw [exit_eq o w h]

/-- The only create-volume request for the Secondary volume among the calls of
a complete provisioning and a complete teardown is the call number 8. -/
theorem secondary_create_index (o : Client) (sub : String) (res : AnfResources) (i : Nat)
    (e : Event)
    (hi : (mainEvents o sub anfResources 0 ++ answered o 12 (exitCalls res))[i]? = some e)
    (hS : e.call.createsVolumeOf anfResources.Secondary = true) : i = 8 := by
  have h := allIdx_getElem?
    (fun i (e : Event) => e.call.createsVolumeOf anfResources.Secondary = true → i = 8)
    (mainEvents o sub anfResources 0 ++ answered o 12 (exitCalls res)) 0
    (by simp [allIdx, mainEvents, answered, exitCalls, Call.createsVolumeOf, anfResources])
    i e hi hS
  simpa using h

/-- The create-volume request for the Secondary volume in a run: the events
before it are the first eight calls of the provisioning, all successful. -/
theorem secondary_create_shape (o : Client) (config : Resp) (flag : Bool)
    (pre post : List Event) (e : Event) (hT : (run o config flag).trace = pre ++ e :: post)
    (hS : e.call.createsVolumeOf anfResources.Secondary = true) :
    config.err = none ∧ pre = (mainEvents o config.id anfResources 0).take 8
      ∧ (mainEvents o config.id anfResources 0)[8]? = some e
      ∧ ∀ x ∈ pre, failed x = false := by
  by_cases hc : config.err = none
  swap
  · rw [run_of_config_error o config flag hc] at hT
    simp [abortRun, initialWorld] at hT
  obtain ⟨res, rest, hfull⟩ := run_append_rest o config flag hc
  rw [hT, List.append_assoc, List.cons_append] at hfull
  obtain ⟨hi, hpre⟩ := split_getElem? _ _ _ _ hfull
  have h8 := secondary_create_index o config.id res _ e hi hS
  rw [h8] at hi hpre
  refine ⟨hc, ?_, ?_, run_before o config flag hc pre post e hT (by omega)⟩
  · rw [hpre]
    rfl
  · rw [← hi]
    rfl

/-- The two create-volume requests among the calls of a complete provisioning. -/
theorem mainEvents_volumes (o : Client) (sub : String) (res : AnfResources) (n : Nat)
    (e3 e8 : Event) (h3 : (mainEvents o sub res n)[3]? = some e3)
    (h8 : (mainEvents o sub res n)[8]? = some e8) :
    e3 ∈ (mainEvents o sub res n).take 8 ∧ e3.call.createsVolumeOf res.Primary = true ∧
    e3.call.dataProtection = some ⟨none⟩ ∧
    e8.call.dataProtection = some ⟨some ⟨EndpointType.EndpointTypeDst, res.Primary.Location,
      e3.resp.id, ReplicationSchedule.ReplicationScheduleHourly⟩⟩ := by
  simp only [mainEvents, List.getElem?_cons_succ, List.getElem?_cons_zero,
    Option.some.injEq] at h3 h8
  subst h3
  subst h8
  simp [mainEvents, Call.createsVolumeOf, Call.dataProtection]

/-- C1: in every run (any client, any configuration result, any initial value
of the cleanup flag), a create-volume request for the Secondary volume is
preceded in the trace by a create-volume request for the Primary volume that
succeeded and whose returned id is the RemoteVolumeResourceID of the replication
object carried by the Secondary request; that id is the VolumeID of the Primary
descriptor. -/
theorem secondary_volume_after_primary (o : Client) (config : Resp) (flag : Bool)
    (pre post : List Event) (e : Event) (hT : (run o config flag).trace = pre ++ e :: post)
    (hS : e.call.createsVolumeOf anfResources.Secondary = true) :
    ∃ e' ∈ pre, e'.call.createsVolumeOf anfResources.Primary = true ∧ e'.resp.err = none ∧
      (run o config flag).anfResources.Primary.VolumeID = e'.resp.id ∧
      ∃ d r, e.call.dataProtection = some d ∧ d.Replication = some r ∧
        r.RemoteVolumeResourceID = e'.resp.id := by
  obtain ⟨hc, hpre, h8, hok⟩ := secondary_create_shape o config flag pre post e hT hS
  obtain ⟨e3, h3⟩ : ∃ e3, (mainEvents o config.id anfResources 0)[3]? = some e3 := ⟨_, rfl⟩
  obtain ⟨hm, hP, _, hd⟩ := mainEvents_volumes o config.id anfResources 0 e3 e h3 h8
  rw [← hpre] at hm
  refine ⟨e3, hm, hP, ?_, ?_, _, _, hd, rfl, rfl⟩
  · simpa [failed] using hok e3 hm
  · rw [run, exit_anfResources]
    apply main_primary_volumeID o config (initialWorld flag) hc e3 h3
    intro x hx
    apply hok x
    rw [hpre]
    have h48 : (mainEvents o config.id anfResources 0).take 4
        = ((mainEvents o config.id anfResources 0).take 8).take 4 := by
      rw [List.take_take]; rfl
    have hx' : x ∈ (mainEvents o config.id anfResources 0).take 4 := hx
    rw [h48] at hx'
    exact List.mem_of_mem_take hx'

/-- Witness of C1: a run in which every call succeeds. -/
theorem secondary_volume_after_primary_witness :
    (run okClient okConfig false).trace
      = (run okClient okConfig false).trace.take 8 ++ secondaryCreateEvent
          :: (run okClient okConfig false).trace.drop 9 ∧
    secondaryCreateEvent.call.createsVolumeOf anfResources.Secondary = true ∧
    ∃ e' ∈ (run okClient okConfig false).trace.take 8,
      e'.call.createsVolumeOf anfResources.Primary = true ∧ e'.resp.err = none ∧
      (run okClient okConfig false).anfResources.Primary.VolumeID = e'.resp.id ∧
      ∃ d r, secondaryCreateEvent.call.dataProtection = some d ∧
        d.Replication = some r ∧ r.RemoteVolumeResourceID = e'.resp.id :=
  ⟨by rfl, by rfl, secondary_volume_after_primary okClient okConfig false
    ((run okClient okConfig false).trace.take 8) ((run okClient okConfig false).trace.drop 9)
    secondaryCreateEvent (by rfl) (by rfl)⟩

/-! ## Content of the create-volume requests -/

/-- C8: in every run, a create-volume request for the Primary volume carries an
empty data protection object (no replication object); a create-volume request
for the Secondary volume carries a data protection object whose replication
object has endpoint type destination, the Location of the Primary descriptor as
remote volume region, the hourly schedule, and as remote volume resource id the
id returned by the successful create-volume call for the Primary volume earlier
in the run, which is the VolumeID of the Primary descriptor; and a run issues
no other create-volume request. -/
theorem volume_request_data_protection (o : Client) (config : Resp) (flag : Bool)
    (e : Event) (he : e ∈ (run o config flag).trace) :
    (e.call.createsVolumeOf anfResources.Primary = true →
      e.call.dataProtection = some ⟨none⟩) ∧
    (e.call.createsVolumeOf anfResources.Secondary = true →
      ∃ e' ∈ (run o config flag).trace,
        e'.call.createsVolumeOf anfResources.Primary = true ∧ e'.resp.err = none ∧
        (run o config flag).anfResources.Primary.VolumeID = e'.resp.id ∧
        e.call.dataProtection = some ⟨some ⟨EndpointType.EndpointTypeDst,
          anfResources.Primary.Location, e'.resp.id,
          ReplicationSchedule.ReplicationScheduleHourly⟩⟩) ∧
    (e.call.dataProtection ≠ none →
      e.call.createsVolumeOf anfResources.Primary = true
        ∨ e.call.createsVolumeOf anfResources.Secondary = true) := by
  by_cases hc : config.err = none
  swap
  · rw [run_of_config_error o config flag hc] at he
    simp [abortRun, initialWorld] at he
  refine ⟨?_, ?_, ?_⟩
  · obtain ⟨res, rest, hfull⟩ := run_append_rest o config flag hc
    have hm : e ∈ mainEvents o config.id anfResources 0 ++ answered o 12 (exitCalls res) := by
      rw [hfull]; exact List.mem_append_left _ he
    simp only [mainEvents, answered, exitCalls, List.mem_append, List.mem_cons,
      List.mem_singleton, List.not_mem_nil, or_false] at hm
    rcases hm with (h | h | h | h | h | h | h | h | h | h | h | h) |
      (h | h | h | h | h | h | h | h | h | h | h | h | h | h | h) <;> subst h <;>
      simp [Call.createsVolumeOf, Call.dataProtection, anfResources]
  · intro hS
    obtain ⟨pre, post, hT⟩ := List.append_of_mem he
    obtain ⟨_, hpre, h8, hok⟩ := secondary_create_shape o config flag pre post e hT hS
    obtain ⟨e3, h3⟩ : ∃ e3, (mainEvents o config.id anfResources 0)[3]? = some e3 := ⟨_, rfl⟩
    obtain ⟨hm, hP, _, hd⟩ := mainEvents_volumes o config.id anfResources 0 e3 e h3 h8
    rw [← hpre] at hm
    refine ⟨e3, by rw [hT]; exact List.mem_append_left _ hm, hP, ?_, ?_, hd⟩
    · simpa [failed] using hok e3 hm
    · rw [run, exit_anfResources]
      apply main_primary_volumeID o config (initialWorld flag) hc e3 h3
      intro x hx
      apply hok x
      rw [hpre]
      have h48 : (mainEvents o config.id anfResources 0).take 4
          = ((mainEvents o config.id anfResources 0).take 8).take 4 := by
        rw [List.take_take]; rfl
      have hx' : x ∈ (mainEvents o config.id anfResources 0).take 4 := hx
      rw [h48] at hx'
      exact List.mem_of_mem_take hx'
  · obtain ⟨res, rest, hfull⟩ := run_append_rest o config flag hc
    have hm : e ∈ mainEvents o config.id anfResources 0 ++ answered o 12 (exitCalls res) := by
      rw [hfull]; exact List.mem_append_left _ he
    simp only [mainEvents, answered, exitCalls, List.mem_append, List.mem_cons,
      List.mem_singleton, List.not_mem_nil, or_false] at hm
    rcases hm with (h | h | h | h | h | h | h | h | h | h | h | h) |
      (h | h | h | h | h | h | h | h | h | h | h | h | h | h | h) <;> subst h <;>
      simp [Call.createsVolumeOf, Call.dataProtection, anfResources]

/-- Witness of C8: the create-volume request for the Secondary volume in a run
in which every call succeeds, teardown included. -/
theorem volume_request_data_protection_witness :
    secondaryCreateEvent ∈ (run okClient okConfig true).trace ∧
    secondaryCreateEvent.call.createsVolumeOf anfResources.Secondary = true ∧
    ∃ e' ∈ (run okClient okConfig true).trace,
      e'.call.createsVolumeOf anfResources.Primary = true ∧ e'.resp.err = none ∧
      (run okClient okConfig true).anfResources.Primary.VolumeID = e'.resp.id ∧
      secondaryCreateEvent.call.dataProtection
        = some ⟨some ⟨EndpointType.EndpointTypeDst, anfResources.Primary.Location, e'.resp.id,
          ReplicationSchedule.ReplicationScheduleHourly⟩⟩ :=
  ⟨by decide, by rfl,
    (volume_request_data_protection okClient okConfig true secondaryCreateEvent
      (by decide)).2.1 (by rfl)⟩

/-! ## Teardown -/

/-- The events `exit` adds to the trace are cut out of the answered calls of a
complete teardown. -/
theorem exit_new_events (o : Client) (w : World) (h : w.shouldCleanUp = true)
    (pre post : List Event) (e : Event)
    (hT : (exit o w).trace = w.trace ++ pre ++ e :: post) :
    takeThrough teardownFailure (answered o w.trace.length (exitCalls w.anfResources))
        = pre ++ e :: post ∧
    ∃ rest, answered o w.trace.length (exitCalls w.anfResources)
        = pre ++ e :: (post ++ rest) := by
  rw [exit_eq o w h] at hT
  simp only [List.append_assoc] at hT
  have h1 := List.append_cancel_left hT
  refine ⟨h1, ?_⟩
  obtain ⟨rest, hrest⟩ := takeThrough_append_rest teardownFailure
    (answered o w.trace.length (exitCalls w.anfResources))
  exact ⟨rest, by rw [hrest, h1]; simp⟩

/-- C10: for every client, when teardown runs (cleanup flag set) and a
break-replication, delete-volume, delete-pool or delete-account call fails, or
a delete-replication call fails with an error other than already-missing, no
call follows it in the trace (none for that side, none for the other side) and
the exit code is 1. -/
theorem teardown_failure_stops (o : Client) (w : World) (h : w.shouldCleanUp = true)
    (pre post : List Event) (e : Event)
    (hT : (exit o w).trace = w.trace ++ pre ++ e :: post)
    (hf : teardownFailure e = true) :
    post = [] ∧ (exit o w).exitCode = 1 := by
  obtain ⟨h1, _⟩ := exit_new_events o w h pre post e hT
  refine ⟨takeThrough_nothing_after _ _ _ _ _ h1 hf, ?_⟩
  have hany := any_of_mem_takeThrough teardownFailure
    (answered o w.trace.length (exitCalls w.anfResources)) e (by rw [h1]; simp) hf
  rw [exit_eq o w h]
  simp only [hany, if_true]

/-- Witness of C10: the deletion of the Secondary volume (call number 5 of the
teardown) fails; the Primary side is not touched. -/
theorem teardown_failure_stops_witness :
    (initialWorld true).shouldCleanUp = true ∧
    (exit (failingAt 5 "busy") (initialWorld true)).trace
      = (initialWorld true).trace ++ (exit (failingAt 5 "busy") (initialWorld true)).trace.take 5
        ++ ⟨Call.DeleteAnfVolume "anf-secondary-rg" "SecondaryANFAccount" "SecondaryPool"
            "SecondaryVolume", ⟨some "busy", ""⟩⟩ :: [] ∧
    ([] : List Event) = [] ∧ (exit (failingAt 5 "busy") (initialWorld true)).exitCode = 1 :=
  ⟨rfl, by rfl, teardown_failure_stops (failingAt 5 "busy") (initialWorld true) rfl
    ((exit (failingAt 5 "busy") (initialWorld true)).trace.take 5) []
    ⟨Call.DeleteAnfVolume "anf-secondary-rg" "SecondaryANFAccount" "SecondaryPool"
      "SecondaryVolume", ⟨some "busy", ""⟩⟩ (by rfl) (by rfl)⟩

/-- The first delete-volume call among the answered calls of a complete
teardown is the call number 5. -/
theorem delete_volume_index (o : Client) (res : AnfResources) (n i : Nat) (e : Event)
    (hi : (answered o n (exitCalls res))[i]? = some e)
    (hd : e.call.isDeleteVolume = true) : 5 ≤ i := by
  have h := allIdx_getElem?
    (fun i (e : Event) => e.call.isDeleteVolume = true → 5 ≤ i)
    (answered o n (exitCalls res)) 0
    (by simp [allIdx, answered, exitCalls, Call.isDeleteVolume])
    i e hi hd
  simpa using h

/-- C2, as stated, fails: in a run with the cleanup flag set in which the wait
for the Broken mirror state (call number 14) fails and every other call
succeeds, the delete-volume call for the Secondary volume is issued all the
same, after a wait for the Broken state that did not succeed. -/
theorem delete_before_broken_counterexample :
    ∃ pre post r,
      (run (failingAt 14 "wait exceeded") okConfig true).trace
        = pre ++ ⟨Call.DeleteAnfVolume "anf-secondary-rg" "SecondaryANFAccount" "SecondaryPool"
            "SecondaryVolume", r⟩ :: post ∧
      ¬ ∃ x ∈ pre, x.call = Call.WaitForMirrorState "rid" MirrorState.MirrorStateBroken 60 50
        ∧ x.resp.err = none :=
  ⟨(run (failingAt 14 "wait exceeded") okConfig true).trace.take 17,
    (run (failingAt 14 "wait exceeded") okConfig true).trace.drop 18, okResp,
    by rfl, by decide⟩

/-- C2, amended: for every client, when teardown runs (cleanup flag set), a
delete-volume call is issued only after the teardown has gone through its first
five calls on the Secondary side: the wait for the Mirrored state, a
break-replication call that succeeded, the wait for the Broken state, a
delete-replication call that returned no error or an already-missing error, and
the wait for the replication to be gone.  The wait for the Broken state has been
issued and has returned; whether it succeeded is not looked at. -/
theorem delete_volume_after_replication_steps (o : Client) (w : World)
    (h : w.shouldCleanUp = true) (pre post : List Event) (e : Event)
    (hT : (exit o w).trace = w.trace ++ pre ++ e :: post)
    (hd : e.call.isDeleteVolume = true) :
    ∃ rM rB rW rD rG : Resp,
      pre.take 5 =
        [⟨Call.WaitForMirrorState w.anfResources.Secondary.VolumeID
            MirrorState.MirrorStateMirrored 60 50, rM⟩,
         ⟨Call.BreakAnfVolumeReplication w.anfResources.Secondary.ResourceGroupName
            w.anfResources.Secondary.AnfAccountName w.anfResources.Secondary.CapacityPoolName
            w.anfResources.Secondary.VolumeName, rB⟩,
         ⟨Call.WaitForMirrorState w.anfResources.Secondary.VolumeID
            MirrorState.MirrorStateBroken 60 50, rW⟩,
         ⟨Call.DeleteAnfVolumeReplication w.anfResources.Secondary.ResourceGroupName
            w.anfResources.Secondary.AnfAccountName w.anfResources.Secondary.CapacityPoolName
            w.anfResources.Secondary.VolumeName, rD⟩,
         ⟨Call.WaitForNoANFResource w.anfResources.Secondary.VolumeID 60 50 true, rG⟩] ∧
      rB.err = none ∧ replicationDeleteFailed rD = false := by
  obtain ⟨h1, rest, h2⟩ := exit_new_events o w h pre post e hT
  obtain ⟨hi, hpre⟩ := split_getElem? _ _ _ _ h2
  have h5 := delete_volume_index o _ _ _ e hi hd
  have hbefore := takeThrough_before _ _ _ _ _ h1
  have htake : pre.take 5
      = (answered o w.trace.length (exitCalls w.anfResources)).take 5 := by
    rw [hpre, List.take_take, Nat.min_eq_left h5]
  have hfive : ∀ x ∈ pre.take 5, teardownFailure x = false :=
    fun x hx => hbefore x (List.mem_of_mem_take hx)
  rw [htake] at hfive
  simp only [answered, exitCalls, List.take_succ_cons, List.take_zero, List.mem_cons,
    List.mem_singleton, List.not_mem_nil, or_false, forall_eq_or_imp, forall_eq,
    teardownFailure, decide_eq_false_iff_not, ne_eq, not_not] at hfive
  exact ⟨_, _, _, _, _, htake, hfive.2.1, hfive.2.2.2.1⟩

/-- Witness of the amended C2: the wait for the Broken state (call number 2 of
the teardown) fails, and the Secondary volume is deleted after it. -/
theorem delete_volume_after_replication_steps_witness :
    (initialWorld true).shouldCleanUp = true ∧
    (exit (failingAt 2 "wait exceeded") (initialWorld true)).trace
      = (initialWorld true).trace
        ++ (exit (failingAt 2 "wait exceeded") (initialWorld true)).trace.take 5
        ++ ⟨Call.DeleteAnfVolume "anf-secondary-rg" "SecondaryANFAccount" "SecondaryPool"
            "SecondaryVolume", okResp⟩
          :: (exit (failingAt 2 "wait exceeded") (initialWorld true)).trace.drop 6 ∧
    ∃ rM rB rW rD rG : Resp,
      ((exit (failingAt 2 "wait exceeded") (initialWorld true)).trace.take 5).take 5 =
        [⟨Call.WaitForMirrorState (initialWorld true).anfResources.Secondary.VolumeID
            MirrorState.MirrorStateMirrored 60 50, rM⟩,
         ⟨Call.BreakAnfVolumeReplication (initialWorld true).anfResources.Secondary.ResourceGroupName
            (initialWorld true).anfResources.Secondary.AnfAccountName
            (initialWorld true).anfResources.Secondary.CapacityPoolName
            (initialWorld true).anfResources.Secondary.VolumeName, rB⟩,
         ⟨Call.WaitForMirrorState (initialWorld true).anfResources.Secondary.VolumeID
            MirrorState.MirrorStateBroken 60 50, rW⟩,
         ⟨Call.DeleteAnfVolumeReplication
            (initialWorld true).anfResources.Secondary.ResourceGroupName
            (initialWorld true).anfResources.Secondary.AnfAccountName
            (initialWorld true).anfResources.Secondary.CapacityPoolName
            (initialWorld true).anfResources.Secondary.VolumeName, rD⟩,
         ⟨Call.WaitForNoANFResource (initialWorld true).anfResources.Secondary.VolumeID
            60 50 true, rG⟩] ∧
      rB.err = none ∧ replicationDeleteFailed rD = false :=
  ⟨rfl, by rfl, delete_volume_after_replication_steps (failingAt 2 "wait exceeded")
    (initialWorld true) rfl
    ((exit (failingAt 2 "wait exceeded") (initialWorld true)).trace.take 5)
    ((exit (failingAt 2 "wait exceeded") (initialWorld true)).trace.drop 6)
    ⟨Call.DeleteAnfVolume "anf-secondary-rg" "SecondaryANFAccount" "SecondaryPool"
      "SecondaryVolume", okResp⟩ (by rfl) (by rfl)⟩

/-! ## Deletion of the replication -/

theorem takeThrough_split {α : Type} (p : α → Bool) (pre rest post : List α) (e : α)
    (h : takeThrough p (pre ++ e :: rest) = pre ++ e :: post) :
    post = if p e then [] else takeThrough p rest := by
  induction pre with
  | nil =>
    by_cases he : p e = true
    · simp only [List.nil_append, takeThrough, he, if_true, List.cons.injEq, true_and] at h
      simp [he, h.symm]
    · simp only [List.nil_append, takeThrough, he, Bool.false_eq_true, if_false,
        List.cons.injEq, true_and] at h
      simp [he, h.symm]
  | cons a pre ih =>
    by_cases ha : p a = true
    · simp [takeThrough, ha] at h
    · simp only [List.cons_append, takeThrough, ha, Bool.false_eq_true, if_false,
        List.cons.injEq, true_and] at h
      exact ih h

theorem any_takeThrough {α : Type} (p : α → Bool) (l : List α) :
    (takeThrough p l).any p = l.any p := by
  induction l with
  | nil => rfl
  | cons a l ih =>
    by_cases ha : p a = true
    · simp [takeThrough, ha]
    · simp [takeThrough, ha, ih]

theorem teardownFailure_err (e : Event) (h : teardownFailure e = true) : e.resp.err ≠ none := by
  intro hn
  unfold teardownFailure at h
  split at h <;> simp_all [replicationDeleteFailed]

theorem replicationDeleteFailed_eq_false (r : Resp) :
    replicationDeleteFailed r = false ↔
      (r.err = none ∨ ∃ msg, r.err = some msg
        ∧ stringsContains msg "VolumeReplicationMissing" = true) := by
  unfold replicationDeleteFailed
  cases r.err with
  | none => simp
  | some msg => simp

/-- The only delete-replication call among the answered calls of a complete
teardown is the call number 3. -/
theorem delete_replication_index (o : Client) (res : AnfResources) (n i : Nat) (e : Event)
    (hi : (answered o n (exitCalls res))[i]? = some e)
    (hd : e.call.isDeleteReplication = true) : i = 3 := by
  have h := allIdx_getElem?
    (fun i (e : Event) => e.call.isDeleteReplication = true → i = 3)
    (answered o n (exitCalls res)) 0
    (by simp [allIdx, answered, exitCalls, Call.isDeleteReplication])
    i e hi hd
  simpa using h

/-- C5: for every client and every answer to the delete-replication call of a
teardown: the call returned no error or an error whose message contains
"VolumeReplicationMissing" if and only if the teardown goes on with the wait for
the replication to be gone and the delete-volume call for the Secondary volume;
in that case the call does not set the exit code (when no later call returns an
error the exit code is the one before the teardown); with any other error the
teardown stops at once, with no further call and exit code 1. -/
theorem replication_delete_outcome (o : Client) (w : World) (h : w.shouldCleanUp = true)
    (pre post : List Event) (e : Event)
    (hT : (exit o w).trace = w.trace ++ pre ++ e :: post)
    (hd : e.call.isDeleteReplication = true) :
    ((e.resp.err = none ∨ ∃ msg, e.resp.err = some msg
        ∧ stringsContains msg "VolumeReplicationMissing" = true) ↔
      ∃ rG rV post', post =
        ⟨Call.WaitForNoANFResource w.anfResources.Secondary.VolumeID 60 50 true, rG⟩
        :: ⟨Call.DeleteAnfVolume w.anfResources.Secondary.ResourceGroupName
            w.anfResources.Secondary.AnfAccountName w.anfResources.Secondary.CapacityPoolName
            w.anfResources.Secondary.VolumeName, rV⟩ :: post') ∧
    ((e.resp.err = none ∨ ∃ msg, e.resp.err = some msg
        ∧ stringsContains msg "VolumeReplicationMissing" = true) →
      (∀ x ∈ post, x.resp.err = none) → (exit o w).exitCode = w.exitCode) ∧
    (¬ (e.resp.err = none ∨ ∃ msg, e.resp.err = some msg
        ∧ stringsContains msg "VolumeReplicationMissing" = true) →
      post = [] ∧ (exit o w).exitCode = 1) := by
  obtain ⟨h1, rest, h2⟩ := exit_new_events o w h pre post e hT
  obtain ⟨hi, hpre⟩ := split_getElem? _ _ _ _ h2
  have h3 := delete_replication_index o _ _ _ e hi hd
  have hbefore := takeThrough_before _ _ _ _ _ h1
  rw [h3] at hi hpre
  -- the call and what follows it
  have he : e = ⟨Call.DeleteAnfVolumeReplication w.anfResources.Secondary.ResourceGroupName
      w.anfResources.Secondary.AnfAccountName w.anfResources.Secondary.CapacityPoolName
      w.anfResources.Secondary.VolumeName, e.resp⟩ := by
    simp only [answered, exitCalls, List.getElem?_cons_succ, List.getElem?_cons_zero,
      Option.some.injEq] at hi
    rw [← hi]
  have hrest : post ++ rest
      = (answered o w.trace.length (exitCalls w.anfResources)).drop 4 := by
    have := congrArg (List.drop 4) h2
    rw [this]
    simp [List.drop_append_eq_append_drop, h3]
  have htf : teardownFailure e = replicationDeleteFailed e.resp := by
    rw [he]; rfl
  have hpost := takeThrough_split teardownFailure pre (post ++ rest) post e (by rw [← h2]; exact h1)
  rw [htf, hrest] at hpost
  rw [← replicationDeleteFailed_eq_false]
  cases hr : replicationDeleteFailed e.resp with
  | true =>
    simp only [hr, if_true] at hpost
    refine ⟨by simp [hpost], by simp, fun _ => ⟨hpost, ?_⟩⟩
    have hany := any_of_mem_takeThrough teardownFailure
      (answered o w.trace.length (exitCalls w.anfResources)) e (by rw [h1]; simp)
      (by rw [htf, hr])
    rw [exit_eq o w h]
    simp only [hany, if_true]
  | false =>
    simp only [hr, Bool.false_eq_true, if_false] at hpost
    refine ⟨?_, ?_, by simp⟩
    · simp only [true_iff]
      rw [hpost]
      simp only [answered, exitCalls, List.drop_succ_cons, List.drop_zero, takeThrough,
        teardownFailure, Bool.false_eq_true, if_false]
      split
      · exact ⟨_, _, _, rfl⟩
      · exact ⟨_, _, _, rfl⟩
    · intro _ hall
      have hnone : (answered o w.trace.length (exitCalls w.anfResources)).any teardownFailure
          = false := by
        have hR : ((answered o w.trace.length (exitCalls w.anfResources)).drop 4).any
            teardownFailure = false := by
          rw [← any_takeThrough, ← hpost, List.any_eq_false]
          exact fun x hx hx' => teardownFailure_err x hx' (hall x hx)
        have hP : pre.any teardownFailure = false := by
          rw [List.any_eq_false]
          exact fun x hx => by simp [hbefore x hx]
        rw [h2, List.any_append, List.any_cons, hrest, hR, hP, htf, hr]
        rfl
      rw [exit_eq o w h]
      simp only [hnone, Bool.false_eq_true, if_false]

/-- Witness of C5: the delete-replication call (call number 3 of the teardown)
reports that the replication is already missing. -/
theorem replication_delete_outcome_witness :
    (initialWorld true).shouldCleanUp = true ∧
    (exit (failingAt 3 "code VolumeReplicationMissing") (initialWorld true)).trace
      = (initialWorld true).trace
        ++ (exit (failingAt 3 "code VolumeReplicationMissing") (initialWorld true)).trace.take 3
        ++ ⟨Call.DeleteAnfVolumeReplication "anf-secondary-rg" "SecondaryANFAccount"
            "SecondaryPool" "SecondaryVolume", ⟨some "code VolumeReplicationMissing", ""⟩⟩
          :: (exit (failingAt 3 "code VolumeReplicationMissing") (initialWorld true)).trace.drop 4 ∧
    (∃ rG rV post',
      (exit (failingAt 3 "code VolumeReplicationMissing") (initialWorld true)).trace.drop 4 =
        ⟨Call.WaitForNoANFResource (initialWorld true).anfResources.Secondary.VolumeID
            60 50 true, rG⟩
        :: ⟨Call.DeleteAnfVolume (initialWorld true).anfResources.Secondary.ResourceGroupName
            (initialWorld true).anfResources.Secondary.AnfAccountName
            (initialWorld true).anfResources.Secondary.CapacityPoolName
            (initialWorld true).anfResources.Secondary.VolumeName, rV⟩ :: post') ∧
    (exit (failingAt 3 "code VolumeReplicationMissing") (initialWorld true)).exitCode
      = (initialWorld true).exitCode :=
  have hw := replication_delete_outcome (failingAt 3 "code VolumeReplicationMissing")
    (initialWorld true) rfl
    ((exit (failingAt 3 "code VolumeReplicationMissing") (initialWorld true)).trace.take 3)
    ((exit (failingAt 3 "code VolumeReplicationMissing") (initialWorld true)).trace.drop 4)
    ⟨Call.DeleteAnfVolumeReplication "anf-secondary-rg" "SecondaryANFAccount"
      "SecondaryPool" "SecondaryVolume", ⟨some "code VolumeReplicationMissing", ""⟩⟩
    (by rfl) (by rfl)
  ⟨rfl, by rfl, hw.1.mp (Or.inr ⟨_, rfl, by rfl⟩),
    hw.2.1 (Or.inr ⟨_, rfl, by rfl⟩) (by decide)⟩

/-! ## The complete teardown -/

/-- C4, as stated, fails: after a provisioning in which every call succeeded,
the teardown in which every call succeeds issues fifteen calls, not the thirteen
of the claim: on the Primary side too a wait for the resource to be gone follows
the deletion of the volume and that of the pool. -/
theorem teardown_sequence_counterexample :
    ((run okClient okConfig true).trace.drop 12).map Event.call ≠
      [ Call.WaitForMirrorState "rid" MirrorState.MirrorStateMirrored 60 50,
        Call.BreakAnfVolumeReplication "anf-secondary-rg" "SecondaryANFAccount" "SecondaryPool"
          "SecondaryVolume",
        Call.WaitForMirrorState "rid" MirrorState.MirrorStateBroken 60 50,
        Call.DeleteAnfVolumeReplication "anf-secondary-rg" "SecondaryANFAccount" "SecondaryPool"
          "SecondaryVolume",
        Call.WaitForNoANFResource "rid" 60 50 true,
        Call.DeleteAnfVolume "anf-secondary-rg" "SecondaryANFAccount" "SecondaryPool"
          "SecondaryVolume",
        Call.WaitForNoANFResource "rid" 60 50 false,
        Call.DeleteAnfCapacityPool "anf-secondary-rg" "SecondaryANFAccount" "SecondaryPool",
        Call.WaitForNoANFResource "rid" 60 50 false,
        Call.DeleteAnfAccount "anf-secondary-rg" "SecondaryANFAccount",
        Call.DeleteAnfVolume "anf-primary-rg" "PrimaryANFAccount" "PrimaryPool" "PrimaryVolume",
        Call.DeleteAnfCapacityPool "anf-primary-rg" "PrimaryANFAccount" "PrimaryPool",
        Call.DeleteAnfAccount "anf-primary-rg" "PrimaryANFAccount" ] ∧
    (((run okClient okConfig true).trace.drop 12).map Event.call).drop 10 =
      [ Call.DeleteAnfVolume "anf-primary-rg" "PrimaryANFAccount" "PrimaryPool" "PrimaryVolume",
        Call.WaitForNoANFResource "rid" 60 50 false,
        Call.DeleteAnfCapacityPool "anf-primary-rg" "PrimaryANFAccount" "PrimaryPool",
        Call.WaitForNoANFResource "rid" 60 50 false,
        Call.DeleteAnfAccount "anf-primary-rg" "PrimaryANFAccount" ] := by
  decide

/-- C4, amended: with the cleanup flag set and a client on which every call
succeeds, the calls `exit` issues are exactly, in order: for Secondary,
wait-mirrored, break-replication, wait-broken, delete-replication, wait-gone,
delete-volume, wait-gone, delete-pool, wait-gone, delete-account; then for
Primary, delete-volume, wait-gone, delete-pool, wait-gone, delete-account, with
no replication step for Primary; the exit code is left as it was. -/
theorem teardown_sequence (o : Client) (w : World) (h : w.shouldCleanUp = true)
    (hok : ∀ n c, (o n c).err = none) :
    ∃ t, (exit o w).trace = w.trace ++ t ∧
      t.map Event.call =
        [ Call.WaitForMirrorState w.anfResources.Secondary.VolumeID
            MirrorState.MirrorStateMirrored 60 50,
          Call.BreakAnfVolumeReplication w.anfResources.Secondary.ResourceGroupName
            w.anfResources.Secondary.AnfAccountName w.anfResources.Secondary.CapacityPoolName
            w.anfResources.Secondary.VolumeName,
          Call.WaitForMirrorState w.anfResources.Secondary.VolumeID
            MirrorState.MirrorStateBroken 60 50,
          Call.DeleteAnfVolumeReplication w.anfResources.Secondary.ResourceGroupName
            w.anfResources.Secondary.AnfAccountName w.anfResources.Secondary.CapacityPoolName
            w.anfResources.Secondary.VolumeName,
          Call.WaitForNoANFResource w.anfResources.Secondary.VolumeID 60 50 true,
          Call.DeleteAnfVolume w.anfResources.Secondary.ResourceGroupName
            w.anfResources.Secondary.AnfAccountName w.anfResources.Secondary.CapacityPoolName
            w.anfResources.Secondary.VolumeName,
          Call.WaitForNoANFResource w.anfResources.Secondary.VolumeID 60 50 false,
          Call.DeleteAnfCapacityPool w.anfResources.Secondary.ResourceGroupName
            w.anfResources.Secondary.AnfAccountName w.anfResources.Secondary.CapacityPoolName,
          Call.WaitForNoANFResource w.anfResources.Secondary.CapacityPoolID 60 50 false,
          Call.DeleteAnfAccount w.anfResources.Secondary.ResourceGroupName
            w.anfResources.Secondary.AnfAccountName,
          Call.DeleteAnfVolume w.anfResources.Primary.ResourceGroupName
            w.anfResources.Primary.AnfAccountName w.anfResources.Primary.CapacityPoolName
            w.anfResources.Primary.VolumeName,
          Call.WaitForNoANFResource w.anfResources.Primary.VolumeID 60 50 false,
          Call.DeleteAnfCapacityPool w.anfResources.Primary.ResourceGroupName
            w.anfResources.Primary.AnfAccountName w.anfResources.Primary.CapacityPoolName,
          Call.WaitForNoANFResource w.anfResources.Primary.CapacityPoolID 60 50 false,
          Call.DeleteAnfAccount w.anfResources.Primary.ResourceGroupName
            w.anfResources.Primary.AnfAccountName ] ∧
      (∀ e ∈ t.drop 10, e.call.isReplicationStep = false) ∧
      (exit o w).exitCode = w.exitCode := by
  have hnone : (answered o w.trace.length (exitCalls w.anfResources)).any teardownFailure
      = false := by
    simp [answered, exitCalls, teardownFailure, replicationDeleteFailed, hok]
  refine ⟨answered o w.trace.length (exitCalls w.anfResources), ?_, rfl, ?_, ?_⟩
  · rw [exit_eq o w h, takeThrough_of_none _ _ hnone]
  · simp [answered, exitCalls, Call.isReplicationStep]
  · rw [exit_eq o w h]
    simp only [hnone, Bool.false_eq_true, if_false]

/-- Witness of the amended C4: the teardown from the initial state on a client
on which every call succeeds. -/
theorem teardown_sequence_witness :
    (initialWorld true).shouldCleanUp = true ∧ (∀ n c, (okClient n c).err = none) ∧
    ∃ t, (exit okClient (initialWorld true)).trace = (initialWorld true).trace ++ t ∧
      t.length = 15 ∧ (∀ e ∈ t.drop 10, e.call.isReplicationStep = false) ∧
      (exit okClient (initialWorld true)).exitCode = (initialWorld true).exitCode := by
  obtain ⟨t, h1, h2, h3, h4⟩ :=
    teardown_sequence okClient (initialWorld true) rfl (fun _ _ => rfl)
  refine ⟨rfl, fun _ _ => rfl, t, h1, ?_, h3, h4⟩
  have := congrArg List.length h2
  simpa using this

/-! ## The complete provisioning -/

/-- When no call of `main` fails, the two descriptors hold as VolumeID the ids
returned by the two create-volume calls. -/
theorem main_volumeIDs (o : Client) (config : Resp) (w : World)
    (hc : config.err = none) (e3 e8 : Event)
    (h3 : (mainEvents o config.id w.anfResources w.trace.length)[3]? = some e3)
    (h8 : (mainEvents o config.id w.anfResources w.trace.length)[8]? = some e8)
    (hok : ∀ x ∈ mainEvents o config.id w.anfResources w.trace.length, failed x = false) :
    (main o config w).anfResources.Primary.VolumeID = e3.resp.id ∧
    (main o config w).anfResources.Secondary.VolumeID = e8.resp.id := by
  obtain ⟨f, res, ec, tr⟩ := w
  simp only [mainEvents, List.getElem?_cons_succ, List.getElem?_cons_zero,
    Option.some.injEq] at h3 h8
  subst h3
  subst h8
  simp only [mainEvents, List.mem_cons, List.mem_singleton,
    List.not_mem_nil, or_false, forall_eq_or_imp, forall_eq, failed, decide_eq_false_iff_not,
    ne_eq, not_not] at hok
  obtain ⟨h0, h1, h2, h3, h4, h5, h6, h7, h8, h9, h10, h11⟩ := hok
  simp only [main, hc, forRange, mainBody, remote, AnfResources.get,
    AnfResources.set, dataProtectionObjectFor, if_true, if_false, List.length_append,
    List.length_singleton, List.length_cons, List.length_nil, List.append_assoc,
    List.singleton_append, List.cons_append, List.nil_append, Nat.add_assoc, Nat.reduceAdd,
    andThen_ok, andThen_error, andThen_ite,
    leave_ite, leave_ok, leave_error, abortRun, reduceCtorEq, ne_eq, not_true_eq_false,
    ite_not, h0, h1, h2, h3, h4, h5, h6, h7, h8, h9, h10, h11, and_self]

/-- C6: with a successful read of the configuration, a client on which every
call succeeds and the cleanup flag at its default value (false), the run issues
exactly these calls, in order: for Primary then for Secondary, subnet lookup,
create account, create pool, create volume, wait for the volume to be ready;
then authorize replication on the Primary volume with the id of the Secondary
volume; then wait for the replication of the Primary volume to be ready.  Here
`volP` and `volS` are the ids returned by the two create-volume calls, which the
descriptors hold as VolumeID.  The run ends with exit code 0 and issues no break
or delete call. -/
theorem successful_run (o : Client) (config : Resp) (hc : config.err = none)
    (hok : ∀ n c, (o n c).err = none) :
    ∃ volP volS : String,
      ((run o config false).trace[3]?).map (fun e => e.resp.id) = some volP ∧
      ((run o config false).trace[8]?).map (fun e => e.resp.id) = some volS ∧
      (run o config false).anfResources.Primary.VolumeID = volP ∧
      (run o config false).anfResources.Secondary.VolumeID = volS ∧
      (run o config false).trace.map Event.call =
        [ Call.GetResourceByID (subnetIDOf config.id anfResources.Primary)
            virtualNetworksApiVersion,
          Call.CreateAnfAccount anfResources.Primary.Location
            anfResources.Primary.ResourceGroupName anfResources.Primary.AnfAccountName []
            sampleTags,
          Call.CreateAnfCapacityPool anfResources.Primary.Location
            anfResources.Primary.ResourceGroupName anfResources.Primary.AnfAccountName
            anfResources.Primary.CapacityPoolName anfResources.Primary.ServiceLevel
            capacityPoolSizeBytes sampleTags,
          Call.CreateAnfVolume anfResources.Primary.Location
            anfResources.Primary.ResourceGroupName anfResources.Primary.AnfAccountName
            anfResources.Primary.CapacityPoolName anfResources.Primary.VolumeName
            anfResources.Primary.ServiceLevel (subnetIDOf config.id anfResources.Primary) ""
            protocolTypes volumeSizeBytes false true sampleTags ⟨none⟩,
          Call.WaitForANFResource volP 60 50 false,
          Call.GetResourceByID (subnetIDOf config.id anfResources.Secondary)
            virtualNetworksApiVersion,
          Call.CreateAnfAccount anfResources.Secondary.Location
            anfResources.Secondary.ResourceGroupName anfResources.Secondary.AnfAccountName
            [] sampleTags,
          Call.CreateAnfCapacityPool anfResources.Secondary.Location
            anfResources.Secondary.ResourceGroupName anfResources.Secondary.AnfAccountName
            anfResources.Secondary.CapacityPoolName anfResources.Secondary.ServiceLevel
            capacityPoolSizeBytes sampleTags,
          Call.CreateAnfVolume anfResources.Secondary.Location
            anfResources.Secondary.ResourceGroupName anfResources.Secondary.AnfAccountName
            anfResources.Secondary.CapacityPoolName anfResources.Secondary.VolumeName
            anfResources.Secondary.ServiceLevel (subnetIDOf config.id anfResources.Secondary) ""
            protocolTypes volumeSizeBytes false true sampleTags
            ⟨some ⟨EndpointType.EndpointTypeDst, anfResources.Primary.Location, volP,
              ReplicationSchedule.ReplicationScheduleHourly⟩⟩,
          Call.WaitForANFResource volS 60 50 false,
          Call.AuthorizeReplication anfResources.Primary.ResourceGroupName
            anfResources.Primary.AnfAccountName anfResources.Primary.CapacityPoolName
            anfResources.Primary.VolumeName volS,
          Call.WaitForANFResource volP 60 50 true ] ∧
      (run o config false).exitCode = 0 ∧
      (∀ e ∈ (run o config false).trace, e.call.isBreakOrDelete = false) := by
  have hall : ∀ x ∈ mainEvents o config.id anfResources 0, failed x = false := by
    intro x hx
    simp only [mainEvents, List.mem_cons, List.mem_singleton, List.not_mem_nil,
      or_false] at hx
    rcases hx with h | h | h | h | h | h | h | h | h | h | h | h <;> subst h <;>
      simp [failed, hok]
  have hnone : (mainEvents o config.id anfResources 0).any failed = false := by
    rw [List.any_eq_false]
    exact fun x hx => by simp [hall x hx]
  obtain ⟨res, h1, h2, _⟩ := run_of_success o config false hc hnone
  simp only [Bool.false_eq_true, if_false, List.append_nil, false_and] at h1 h2
  obtain ⟨e3, h3⟩ : ∃ e3, (mainEvents o config.id anfResources 0)[3]? = some e3 := ⟨_, rfl⟩
  obtain ⟨e8, h8⟩ : ∃ e8, (mainEvents o config.id anfResources 0)[8]? = some e8 := ⟨_, rfl⟩
  obtain ⟨hP, hS⟩ := main_volumeIDs o config (initialWorld false) hc e3 e8 h3 h8 hall
  refine ⟨e3.resp.id, e8.resp.id, ?_, ?_, ?_, ?_, ?_, h2, ?_⟩
  · rw [h1, h3]; rfl
  · rw [h1, h8]; rfl
  · rw [run, exit_anfResources]; exact hP
  · rw [run, exit_anfResources]; exact hS
  · rw [h1]
    simp only [mainEvents, List.getElem?_cons_succ, List.getElem?_cons_zero,
      Option.some.injEq] at h3 h8
    subst h3
    subst h8
    rfl
  · intro e he
    rw [h1] at he
    exact (mem_mainEvents o _ _ _ e he).2.1

/-- Witness of C6: the run on the client whose every answer is `okResp`. -/
theorem successful_run_witness :
    okConfig.err = none ∧ (∀ n c, (okClient n c).err = none) ∧
    (run okClient okConfig false).trace.length = 12 ∧
    (run okClient okConfig false).exitCode = 0 ∧
    (∀ e ∈ (run okClient okConfig false).trace, e.call.isBreakOrDelete = false) := by
  obtain ⟨volP, volS, _, _, _, _, h5, h6, h7⟩ :=
    successful_run okClient okConfig rfl (fun _ _ => rfl)
  refine ⟨rfl, fun _ _ => rfl, ?_, h6, h7⟩
  have := congrArg List.length h5
  simpa using this

/-! ## The readiness poller -/

theorem pollFrom_success (target : Target) (obs : Nat → Observation) (remaining done : Nat)
    (last : Option Observation) (k : Nat) (hk : done < k) (hkn : k ≤ done + remaining)
    (hmet : target.met (obs k) = true)
    (hfirst : ∀ j, done < j → j < k → target.met (obs j) = false) :
    pollFrom target obs remaining done last
      = { success := true, lastObserved := some (obs k), fetches := k } := by
  induction remaining generalizing done last with
  | zero => omega
  | succ r ih =>
    by_cases hd : done + 1 = k
    · subst hd
      simp [pollFrom, hmet]
    · have hnot : target.met (obs (done + 1)) = false := hfirst (done + 1) (by omega) (by omega)
      simp only [pollFrom, hnot, Bool.false_eq_true, if_false]
      exact ih (done + 1) _ (by omega) (by omega) (fun j h1 h2 => hfirst j (by omega) h2)

theorem pollFrom_timeout (target : Target) (obs : Nat → Observation) (remaining done : Nat)
    (last : Option Observation)
    (hnever : ∀ k, done < k → k ≤ done + remaining → target.met (obs k) = false) :
    pollFrom target obs remaining done last
      = { success := false
          lastObserved := if remaining = 0 then last else some (obs (done + remaining))
          fetches := done + remaining } := by
  induction remaining generalizing done last with
  | zero => simp [pollFrom]
  | succ r ih =>
    have hnot : target.met (obs (done + 1)) = false := hnever (done + 1) (by omega) (by omega)
    simp only [pollFrom, hnot, Bool.false_eq_true, if_false]
    rw [ih (done + 1) _ (fun k h1 h2 => hnever k (by omega) (by omega))]
    have h1 : done + 1 + r = done + (r + 1) := by omega
    by_cases hr : r = 0
    · subst hr; simp
    · simp [hr, h1]

/-- C7: the three pollers are the generic poll routine at their target
condition, and for every target condition, every sequence of observed states
and every retry budget `n`: when the condition is met at an attempt `k` with
`1 ≤ k ≤ n` and at no earlier attempt, the poller returns success after exactly
`k` fetches, with the state observed at attempt `k`; when the condition is met
at none of the attempts `1 .. n`, the poller returns a timeout failure after
exactly `n` fetches, carrying the state observed last. -/
theorem poller_outcome (fetch : String → Bool → Nat → Observation) (resourceID : String)
    (desiredState : MirrorState) (checkForReplication : Bool) (target : Target)
    (obs : Nat → Observation) (n : Nat) :
    (WaitForANFResource fetch resourceID n checkForReplication
        = poll Target.ReadyExists (fetch resourceID checkForReplication) n ∧
      WaitForNoANFResource fetch resourceID n checkForReplication
        = poll Target.Gone (fetch resourceID checkForReplication) n ∧
      WaitForMirrorState fetch resourceID desiredState n
        = poll (Target.Mirror desiredState) (fetch resourceID true) n) ∧
    (∀ k, 1 ≤ k → k ≤ n → target.met (obs k) = true →
      (∀ j, 1 ≤ j → j < k → target.met (obs j) = false) →
      poll target obs n = { success := true, lastObserved := some (obs k), fetches := k }) ∧
    ((∀ k, 1 ≤ k → k ≤ n → target.met (obs k) = false) →
      poll target obs n = { success := false
                            lastObserved := if n = 0 then none else some (obs n)
                            fetches := n }) := by
  refine ⟨⟨rfl, rfl, rfl⟩, fun k h1 hn hmet hfirst => ?_, fun hnever => ?_⟩
  · exact pollFrom_success target obs n 0 none k (by omega) (by omega) hmet
      (fun j hj hjk => hfirst j (by omega) hjk)
  · have := pollFrom_timeout target obs n 0 none (fun k hk hkn => hnever k (by omega) (by omega))
    simpa [poll] using this

/-- Witness of C7: a volume that is found ready at the third attempt, polled
with a budget of five attempts, and a volume that never gets ready. -/
theorem poller_outcome_witness :
    poll Target.ReadyExists
        (fun k => if k = 3 then Observation.Found true none else Observation.Found false none) 5
      = { success := true, lastObserved := some (Observation.Found true none), fetches := 3 } ∧
    poll Target.ReadyExists (fun _ => Observation.Found false none) 5
      = { success := false, lastObserved := some (Observation.Found false none), fetches := 5 } :=
  ⟨(poller_outcome (fun _ _ _ => Observation.NotFound) "" MirrorState.MirrorStateBroken false
      Target.ReadyExists
      (fun k => if k = 3 then Observation.Found true none else Observation.Found false none)
      5).2.1 3 (by decide) (by decide) (by rfl)
      (fun j h1 h3 => by interval_cases j <;> rfl),
   (poller_outcome (fun _ _ _ => Observation.NotFound) "" MirrorState.MirrorStateBroken false
      Target.ReadyExists (fun _ => Observation.Found false none) 5).2.2 (fun _ _ _ => rfl)⟩

end CRR
